import Mathlib

/-
Verification development for a tree-walking interpreter (language L):
lexer, Pratt parser, AST printer and evaluator, translated from the Go
sources into a shallow embedding.  Go interface values become an
inductive type of runtime objects; the mutable, pointer-shared
environment chain becomes a heap of frames addressed by natural
numbers; Go runtime panics (index out of range, integer divide by
zero) become an explicit panic outcome; possible non-termination of
evaluation and parsing is handled by fuel.
-/

set_option maxRecDepth 20000

namespace ML

-- ====================================================================
-- Tokens (src/tokens.go)
-- ====================================================================

/-- Token record from src/tokens.go: a kind, the exact literal, and the
line and column recorded by the lexer. -/
structure Token where
  tokenType : String
  literal : String
  line : Nat
  column : Nat
deriving Repr, DecidableEq

namespace Tok

def ILLEGAL : String := "ILLEGAL"

def EOF : String := "EOF"

def IDENT : String := "IDENT"

def INT : String := "INT"

def FLOAT : String := "FLOAT"

def STRING : String := "STRING"

def ASSIGN : String := "="

def PLUS : String := "+"

def MINUS : String := "-"

def ASTERIX : String := "*"

def SLASH : String := "/"

def MODULO : String := "%"

def BANG : String := "!"

def EQ : String := "=="

def NOTEQ : String := "!="

def LT : String := "<"

def GT : String := ">"

def LTEQ : String := "<="

def GTEQ : String := ">="

def COMMA : String := ","

def SEMICOLON : String := ";"

def COLON : String := ":"

def LPAREN : String := "("

def RPAREN : String := ")"

def LBRACE : String := "\x7b"

def RBRACE : String := "\x7d"

def LBRACKET : String := "["

def RBRACKET : String := "]"

def FUNCTION : String := "FUNCTION"

def LET : String := "LET"

def IF : String := "IF"

def ELSE : String := "ELSE"

def TRUE : String := "TRUE"

def FALSE : String := "FALSE"

def RETURN : String := "RETURN"

end Tok

/-- lookupIdent from src/tokens.go: keyword table for identifiers. -/
def lookupIdent (ident : String) : String :=
  if ident == ("fn") then Tok.FUNCTION
  else if ident == ("let") then Tok.LET
  else if ident == ("if") then Tok.IF
  else if ident == ("else") then Tok.ELSE
  else if ident == ("true") then Tok.TRUE
  else if ident == ("false") then Tok.FALSE
  else if ident == ("return") then Tok.RETURN
  else Tok.IDENT

-- ====================================================================
-- AST (src/unnamed/part_003)
-- ====================================================================

/-- Identifier AST node: originating token plus the name. -/
structure Identifier where
  token : Token
  value : String
deriving Repr

mutual

/-- Statement nodes.  BlockStatement implements the Go Statement
interface, so it is a constructor here as well; a function body and the
branches of an if expression are blockStatement values by construction
of the parser. -/
inductive Stmt where
  | letStatement (token : Token) (name : Identifier) (value : Expr)
  | returnStatement (token : Token) (value : Expr)
  | expressionStatement (token : Token) (expression : Expr)
  | blockStatement (token : Token) (statements : List Stmt)
deriving Repr

/-- Expression nodes, one constructor per Go struct.  Fields that are
nil only on error paths of the parser (where the error list is
non-empty) are modelled as total; the one nil that occurs in well
formed trees, the missing else branch, is an Option. -/
inductive Expr where
  | arrayLiteral (token : Token) (elements : List Expr)
  | booleanLiteral (token : Token) (value : Bool)
  | callExpression (token : Token) (function : Expr) (arguments : List Expr)
  | floatLiteral (token : Token) (value : Float)
  | functionLiteral (token : Token) (parameters : List Identifier) (body : Stmt)
  | identExpression (ident : Identifier)
  | ifExpression (token : Token) (condition : Expr) (consequence : Stmt)
      (alternative : Option Stmt)
  | indexExpression (token : Token) (left : Expr) (index : Expr)
  | infixExpression (token : Token) (left : Expr) (operator : String) (right : Expr)
  | integerLiteral (token : Token) (value : Int)
  | prefixExpression (token : Token) (operator : String) (right : Expr)
  | stringLiteral (token : Token) (value : String)
deriving Repr

end

/-- Program root node: a sequence of statements. -/
structure Program where
  statements : List Stmt
deriving Repr

-- ====================================================================
-- Runtime objects (src/object.go)
-- ====================================================================

/-- Runtime objects.  A Function value captures the address of its
defining environment frame, mirroring the Go pointer to Environment.
goNil models the nil Go interface value that the variable result of
evalProgram and evalBlockStatement starts from and that an empty block
returns. -/
inductive Obj where
  | integer (value : Int)
  | float (value : Float)
  | boolean (value : Bool)
  | str (value : String)
  | arr (elements : List Obj)
  | function (parameters : List Identifier) (body : Stmt) (env : Nat)
  | builtin (name : String)
  | null
  | returnValue (value : Obj)
  | error (message : String)
  | goNil
deriving Repr

def ARRAY_OBJ : String := "ARRAY"

def BOOL_OBJ : String := "BOOLEAN"

def BUILTIN_OBJ : String := "BUILTIN"

def ERR_OBJ : String := "ERROR_OBJ"

def FLOAT_OBJ : String := "FLOAT"

def FUNCTION_OBJ : String := "FUNCTION"

def INTEGER_OBJ : String := "INTEGER"

def NULL_OBJ : String := "NULL"

def RETURN_OBJ : String := "RETURN_VALUE"

def STRING_OBJ : String := "STRING_OBJ"

/-- The Type() methods of src/object.go.  Calling Type() on a nil
interface value panics in Go; the marker string returned for goNil is
distinct from every real object type and is never produced by the
evaluator on the programs studied here. -/
def Obj.type : Obj → String
  | .integer _ => INTEGER_OBJ
  | .float _ => FLOAT_OBJ
  | .boolean _ => BOOL_OBJ
  | .str _ => STRING_OBJ
  | .arr _ => ARRAY_OBJ
  | .function _ _ _ => FUNCTION_OBJ
  | .builtin _ => BUILTIN_OBJ
  | .null => NULL_OBJ
  | .returnValue _ => RETURN_OBJ
  | .error _ => ERR_OBJ
  | .goNil => "GO_NIL"

-- ====================================================================
-- Environments (src/object.go, Environment)
-- ====================================================================

/-- One Environment of src/object.go: a mutable name store plus an
optional outer pointer.  The Go map is modelled as an association list
where lookup takes the first match and an update prepends. -/
structure Frame where
  store : List (String × Obj)
  outer : Option Nat
deriving Repr

/-- The heap of environment frames.  A Go pointer to an Environment is
an index into this list; allocation appends at the end, so the outer
pointer of every frame built by the evaluator is a smaller index. -/
abbrev St := List Frame

/-- First-match lookup in the association list modelling the Go map. -/
def lookupStore : List (String × Obj) → String → Option Obj
  | [], _ => none
  | (k, v) :: rest, name => if k == name then some v else lookupStore rest name

/-- Environment.get of src/object.go: look in the own store, then walk
the outer chain.  gas bounds the walk; the chain built by the evaluator
is acyclic with strictly decreasing addresses, so gas = heap size + 1
always suffices. -/
def envGet (s : St) : Nat → Nat → String → Option Obj
  | 0, _, _ => none
  | gas + 1, addr, name =>
    match s[addr]? with
    | none => none
    | some fr =>
      match lookupStore fr.store name with
      | some v => some v
      | none =>
        match fr.outer with
        | some out => envGet s gas out name
        | none => none

/-- Environment.set of src/object.go: write into the innermost store of
the addressed frame (the heap is returned because the frame is mutated
in place in Go). -/
def envSet (s : St) (addr : Nat) (name : String) (v : Obj) : St :=
  match s[addr]? with
  | some fr => s.set addr ⟨(name, v) :: fr.store, fr.outer⟩
  | none => s

/-- newEnvironment of src/object.go, as heap allocation. -/
def newEnvironment (s : St) : Nat × St :=
  (s.length, s ++ [⟨[], none⟩])

/-- newEnclosedEnvironment of src/object.go. -/
def newEnclosedEnvironment (s : St) (outer : Nat) : Nat × St :=
  (s.length, s ++ [⟨[], some outer⟩])

-- ====================================================================
-- Pure evaluator helpers (src/unnamed/part_001)
-- ====================================================================

/-- nativeBoolToBoolObj: the shared TrueObject / FalseObject singletons
are the two boolean values. -/
def nativeBoolToBoolObj (input : Bool) : Obj :=
  if input then .boolean true else .boolean false

/-- newError builds an Error object (the Go version formats the message
with Sprintf; here messages are passed preformatted). -/
def newError (msg : String) : Obj := .error msg

/-- isError of src/unnamed/part_001: nil first, then a Type() check. -/
def isError : Obj → Bool
  | .goNil => false
  | o => o.type == ERR_OBJ

/-- isTruthy: identity switch over the three singletons; every other
object, including a nil result, hits the default and is truthy. -/
def isTruthy : Obj → Bool
  | .null => false
  | .boolean true => true
  | .boolean false => false
  | _ => true

/-- unwrapReturnValue of src/unnamed/part_001. -/
def unwrapReturnValue : Obj → Obj
  | .returnValue v => v
  | o => o

/-- Wrap an unbounded integer into the two-complement range of the host
int64, as Go arithmetic does on overflow. -/
def wrap64 (n : Int) : Int := (n + 2 ^ 63) % 2 ^ 64 - 2 ^ 63

/-- Go interface equality as used by the == and != fallthrough cases of
evalInfixExpr.  The singleton objects true, false and null compare by
value, which coincides with Go pointer identity because the evaluator
only ever allocates them once; objects of different types are never
identical.  Two composite objects (arrays, functions, return values,
errors) are distinct allocations at every comparison that reaches this
fallthrough with freshly evaluated operands, hence unequal; comparing
the very same allocation with itself would be true in Go and is not
captured here, and no claim depends on it. -/
def goInterfaceEq : Obj → Obj → Bool
  | .boolean a, .boolean b => a == b
  | .null, .null => true
  | .goNil, .goNil => true
  | _, _ => false

/-- The message of the invalid-operator error shared by the integer,
float and fallthrough operator branches. -/
def invalidOperatorMsg (l op r : String) (tok : Token) : String :=
  "invalid operator found when evaluating infix expression \x7b" ++ l ++ " " ++
    op ++ " " ++ r ++ "\x7d. On line " ++ toString tok.line ++ ", column " ++
    toString tok.column ++ "."

/-- The message of the mismatched-types error of evalInfixExpr. -/
def mismatchedTypesMsg (lt rt : String) (tok : Token) : String :=
  "mismatched types found when evaluating infix expression \x7b" ++ lt ++ ", " ++
    rt ++ "\x7d. On line: " ++ toString tok.line ++ ", column: " ++
    toString tok.column

/-- evalOtherInfixOperators of src/unnamed/part_001 instantiated at
int64 (the Go function is generic over int64 and float64). -/
def evalOtherInfixOperatorsInt (tok : Token) (left right : Int) (operator : String) : Obj :=
  if operator == Tok.LT then nativeBoolToBoolObj (left < right)
  else if operator == Tok.LTEQ then nativeBoolToBoolObj (left ≤ right)
  else if operator == Tok.GT then nativeBoolToBoolObj (left > right)
  else if operator == Tok.GTEQ then nativeBoolToBoolObj (left ≥ right)
  else if operator == Tok.NOTEQ then nativeBoolToBoolObj (left ≠ right)
  else if operator == Tok.EQ then nativeBoolToBoolObj (left == right)
  else newError (invalidOperatorMsg (toString left) operator (toString right) tok)

/-- evalOtherInfixOperators instantiated at float64.  Go compares IEEE
doubles; Lean Float comparisons are the same IEEE comparisons. -/
def evalOtherInfixOperatorsFloat (tok : Token) (left right : Float) (operator : String) : Obj :=
  if operator == Tok.LT then nativeBoolToBoolObj (left < right)
  else if operator == Tok.LTEQ then nativeBoolToBoolObj (left ≤ right)
  else if operator == Tok.GT then nativeBoolToBoolObj (left > right)
  else if operator == Tok.GTEQ then nativeBoolToBoolObj (left ≥ right)
  else if operator == Tok.NOTEQ then nativeBoolToBoolObj (left != right)
  else if operator == Tok.EQ then nativeBoolToBoolObj (left == right)
  else newError (invalidOperatorMsg (toString left) operator (toString right) tok)

/-- evalIntegerInfixExpr of src/unnamed/part_001.  The Go division
leftVal / rightVal is the host int64 division: it truncates toward
zero, wraps on the single overflow case MinInt64 / -1, and panics when
the divisor is zero; the panic is the error branch of the Except.  The
final catch-all models the Go type assertions left.(*Integer) and
right.(*Integer), which panic when the function is called on anything
else; evalInfixExpr only calls it with two Integer operands. -/
def evalIntegerInfixExpr (tok : Token) (left right : Obj) (operator : String) :
    Except String Obj :=
  match left, right with
  | .integer leftVal, .integer rightVal =>
    if operator == Tok.PLUS then .ok (.integer (wrap64 (leftVal + rightVal)))
    else if operator == Tok.MINUS then .ok (.integer (wrap64 (leftVal - rightVal)))
    else if operator == Tok.SLASH then
      if rightVal = 0 then .error ("runtime error: integer divide by zero")
      else .ok (.integer (wrap64 (leftVal.tdiv rightVal)))
    else if operator == Tok.ASTERIX then .ok (.integer (wrap64 (leftVal * rightVal)))
    else .ok (evalOtherInfixOperatorsInt tok leftVal rightVal operator)
  | _, _ => .error ("interface conversion: Object is not *Integer")

/-- evalFloatInfixExpr of src/unnamed/part_001.  IEEE arithmetic has no
panics (x / 0.0 is an infinity); the error branch only models the type
assertions, unreachable from evalInfixExpr. -/
def evalFloatInfixExpr (tok : Token) (left right : Obj) (operator : String) :
    Except String Obj :=
  match left, right with
  | .float leftVal, .float rightVal =>
    if operator == Tok.PLUS then .ok (.float (leftVal + rightVal))
    else if operator == Tok.MINUS then .ok (.float (leftVal - rightVal))
    else if operator == Tok.SLASH then .ok (.float (leftVal / rightVal))
    else if operator == Tok.ASTERIX then .ok (.float (leftVal * rightVal))
    else .ok (evalOtherInfixOperatorsFloat tok leftVal rightVal operator)
  | _, _ => .error ("interface conversion: Object is not *Float")

/-- evalStringInfixExpression of src/unnamed/part_001: the operator is
checked before the type assertions, so a non-plus operator returns an
error without asserting. -/
def evalStringInfixExpression (tok : Token) (operator : String) (left right : Obj) :
    Except String Obj :=
  if operator != Tok.PLUS then
    .ok (newError (invalidOperatorMsg left.type operator right.type tok))
  else
    match left, right with
    | .str leftVal, .str rightVal => .ok (.str (leftVal ++ rightVal))
    | _, _ => .error ("interface conversion: Object is not *StringValue")

/-- evalInfixExpr of src/unnamed/part_001: dispatch on the operand
types in source order. -/
def evalInfixExpr (tok : Token) (left right : Obj) (operator : String) :
    Except String Obj :=
  if left.type == INTEGER_OBJ && right.type == INTEGER_OBJ then
    evalIntegerInfixExpr tok left right operator
  else if left.type == FLOAT_OBJ && right.type == FLOAT_OBJ then
    evalFloatInfixExpr tok left right operator
  else if left.type == STRING_OBJ && right.type == STRING_OBJ then
    evalStringInfixExpression tok operator left right
  else if operator == Tok.EQ then
    .ok (nativeBoolToBoolObj (goInterfaceEq left right))
  else if operator == Tok.NOTEQ then
    .ok (nativeBoolToBoolObj (!goInterfaceEq left right))
  else if left.type != right.type then
    .ok (newError (mismatchedTypesMsg left.type right.type tok))
  else
    .ok (newError (invalidOperatorMsg left.type operator right.type tok))

/-- evalBangOperatorExpr: identity switch over the singletons; the
default (every non-singleton object, and a nil result) is false. -/
def evalBangOperatorExpr : Obj → Obj
  | .boolean true => .boolean false
  | .boolean false => .boolean true
  | .null => .boolean true
  | _ => .boolean false

/-- evalMinusPrefixExpr of src/unnamed/part_001.  Negating MinInt64
wraps in Go, hence the wrap64. -/
def evalMinusPrefixExpr (tok : Token) (right : Obj) : Obj :=
  match right with
  | .integer v => .integer (wrap64 (-v))
  | .float v => .float (-v)
  | _ =>
    newError ("invalid operator \x7b" ++ tok.literal ++ "\x7d. On line: " ++
      toString tok.line ++ ", column: " ++ toString tok.column ++ ".")

/-- evalPrefixExpression of src/unnamed/part_001. -/
def evalPrefixExpression (tok : Token) (operator : String) (right : Obj) : Obj :=
  if operator == Tok.BANG then evalBangOperatorExpr right
  else if operator == Tok.MINUS then evalMinusPrefixExpr tok right
  else
    newError ("invalid operator in prefix position \x7b" ++ operator ++
      "\x7d. On line: " ++ toString tok.line ++ ", column: " ++ toString tok.column)

/-- evalArrayIndexExpression of src/unnamed/part_001: a negative index
or one past the last element yields null, otherwise the element is read
directly.  The two error branches model the Go type assertions and the
slice access, both unreachable: the former because evalIndexExpression
guards the call, the latter because of the bound check. -/
def evalArrayIndexExpression (array index : Obj) : Except String Obj :=
  match array, index with
  | .arr elements, .integer idx =>
    if idx < 0 || idx > (elements.length : Int) - 1 then .ok .null
    else
      match elements[idx.toNat]? with
      | some o => .ok o
      | none => .error ("runtime error: index out of range")
  | _, _ => .error ("interface conversion: not *Array / *Integer")

/-- evalIndexExpression of src/unnamed/part_001. -/
def evalIndexExpression (tok : Token) (left index : Obj) : Except String Obj :=
  if left.type == ARRAY_OBJ && index.type == INTEGER_OBJ then
    evalArrayIndexExpression left index
  else
    .ok (newError ("index operator not supported: " ++ left.type ++ ". On line " ++
      toString tok.line ++ ", column: " ++ toString tok.column ++ "."))

-- ====================================================================
-- Builtins (src/golangBuiltins.go)
-- ====================================================================

/-- The keys of the builtins map. -/
def builtinNames : List String :=
  ["len", "first", "last", "rest", "push", "range_array", "puts"]

/-- The loop of range_array: the integers from start to stop inclusive,
empty when start exceeds stop. -/
def rangeArrayList (start stop : Int) : List Obj :=
  (List.range (stop + 1 - start).toNat).map (fun k => .integer (start + k))

/-- The native builtin functions of src/golangBuiltins.go.  Arrays are
modelled by value; push copies the elements and appends, exactly as the
Go code does with make and copy, so the value model is observationally
the same (the claim about the argument array staying unchanged is
settled against a slice-store model below).  puts prints in Go; the
output is dropped here and only the null result is kept.  The default
branch is unreachable: builtin objects are only created from names of
the map. -/
def builtinsFn : String → List Obj → Obj
  | "len", args =>
    if args.length != 1 then
      newError ("wrong number of args passed to len(). Got " ++
        toString args.length ++ ", want 1")
    else
      match args with
      | [.arr elements] => .integer elements.length
      | [.str value] => .integer value.length
      | [a] => newError ("argument to \x27len()\x27 not supported, got " ++ a.type)
      | _ => newError ("unreachable")
  | "first", args =>
    if args.length != 1 then
      newError ("first: wrong number of arguments. Got " ++
        toString args.length ++ ", want 1")
    else
      match args with
      | [.arr elements] =>
        match elements with
        | e :: _ => e
        | [] => .null
      | [a] => newError ("first: arguments to first must be an Array, got " ++ a.type ++ ".")
      | _ => newError ("unreachable")
  | "last", args =>
    if args.length != 1 then
      newError ("last: wrong number of arguments. Got " ++
        toString args.length ++ ", want 1")
    else
      match args with
      | [.arr elements] =>
        match elements.getLast? with
        | some e => e
        | none => .null
      | [a] => newError ("last: arguments to last must be an Array, got " ++ a.type ++ ".")
      | _ => newError ("unreachable")
  | "rest", args =>
    if args.length != 1 then
      newError ("rest: wrong number of arguments. Got " ++
        toString args.length ++ ", want 1")
    else
      match args with
      | [.arr elements] =>
        match elements with
        | _ :: tail => .arr tail
        | [] => .null
      | [a] => newError ("rest: arguments to rest must be an Array, got " ++ a.type ++ ".")
      | _ => newError ("unreachable")
  | "push", args =>
    if args.length != 2 then
      newError ("push: wrong number of arguments. Got " ++
        toString args.length ++ ", want 2")
    else
      match args with
      | [.arr elements, v] => .arr (elements ++ [v])
      | [a, _] => newError ("push: first argument to push must be an Array, got " ++ a.type ++ ".")
      | _ => newError ("unreachable")
  | "range_array", args =>
    if args.length != 2 then
      newError ("range_array: wrong number of arguments. Got " ++
        toString args.length ++ ", want 2")
    else
      match args with
      | [.integer start, .integer stop] => .arr (rangeArrayList start stop)
      | [a, b] =>
        newError ("range_array: invalid types provided: (" ++ a.type ++ ", " ++
          b.type ++ "). This function only accepts INTEGERS.")
      | _ => newError ("unreachable")
  | "puts", _ => .null
  | _, _ => newError ("unreachable: unknown builtin")

/-- evalIdentifier of src/unnamed/part_001: environment chain first,
builtins table second, error third. -/
def evalIdentifier (tok : Token) (name : String) (a : Nat) (s : St) : Obj :=
  match envGet s (s.length + 1) a name with
  | some v => v
  | none =>
    if builtinNames.contains name then .builtin name
    else
      newError ("identifier not found \x7b" ++ name ++ "\x7d. Found on line: " ++
        toString tok.line ++ ", column: " ++ toString tok.column ++ ".")

-- ====================================================================
-- The evaluator (src/unnamed/part_001)
-- ====================================================================

/-- Outcome of evaluating one node: a value with the updated frame
heap, a Go runtime panic, or fuel exhaustion (the Go program would
still be running). -/
inductive Res where
  | ok (result : Obj) (s : St)
  | panic (msg : String)
  | timeout
deriving Repr

/-- Outcome of evalExpressions. -/
inductive ResL where
  | ok (results : List Obj) (s : St)
  | panic (msg : String)
  | timeout
deriving Repr

/-- The early-return test of evalBlockStatement: a non-nil result whose
type is RETURN_VALUE or ERROR_OBJ stops the block. -/
def blockShouldReturn : Obj → Bool
  | .goNil => false
  | o => o.type == RETURN_OBJ || o.type == ERR_OBJ

/-- The loop body of extendFunctionEnv: bind each parameter to the
argument at its position.  The slice access args[idx] panics in Go when
the index is out of range, with the standard runtime message. -/
def bindParams : List Identifier → List Obj → Nat → List (String × Obj) →
    Except String (List (String × Obj))
  | [], _, _, acc => .ok acc
  | p :: ps, args, idx, acc =>
    match args[idx]? with
    | some v => bindParams ps args (idx + 1) ((p.value, v) :: acc)
    | none =>
      .error ("runtime error: index out of range [" ++ toString idx ++
        "] with length " ++ toString args.length)

/-- extendFunctionEnv of src/unnamed/part_001: a fresh frame enclosing
the captured environment of the function, with the parameters bound
positionally. -/
def extendFunctionEnv (params : List Identifier) (fenv : Nat) (args : List Obj)
    (s : St) : Except String (Nat × St) :=
  match bindParams params args 0 [] with
  | .ok store => .ok (s.length, s ++ [⟨store, some fenv⟩])
  | .error m => .error m

mutual

/-- eval of src/unnamed/part_001, statement cases. -/
def evalStmt : Nat → Stmt → Nat → St → Res
  | 0, _, _, _ => .timeout
  | fuel + 1, stmt, a, s =>
    match stmt with
    | .letStatement _ name value =>
      match evalExpr fuel value a s with
      | .ok val s' =>
        if isError val then .ok val s'
        else .ok val (envSet s' a name.value val)
      | r => r
    | .returnStatement _ value =>
      match evalExpr fuel value a s with
      | .ok val s' =>
        if isError val then .ok val s' else .ok (.returnValue val) s'
      | r => r
    | .expressionStatement _ e => evalExpr fuel e a s
    | .blockStatement _ stmts => evalBlockLoop fuel stmts a s .goNil
termination_by structural fuel stmt a s => fuel

/-- evalBlockStatement of src/unnamed/part_001: the result variable
starts nil, each statement overwrites it, and a return value or error
stops the loop without unwrapping. -/
def evalBlockLoop : Nat → List Stmt → Nat → St → Obj → Res
  | 0, _, _, _, _ => .timeout
  | _ + 1, [], _, s, result => .ok result s
  | fuel + 1, stmt :: rest, a, s, _ =>
    match evalStmt fuel stmt a s with
    | .ok r s' =>
      if blockShouldReturn r then .ok r s'
      else evalBlockLoop fuel rest a s' r
    | r => r
termination_by structural fuel stmts a s result => fuel

/-- eval of src/unnamed/part_001, expression cases. -/
def evalExpr : Nat → Expr → Nat → St → Res
  | 0, _, _, _ => .timeout
  | fuel + 1, e, a, s =>
    match e with
    | .arrayLiteral _ elements =>
      match evalExpressions fuel elements a s with
      | .ok objs s' =>
        match objs with
        | [o] => if isError o then .ok o s' else .ok (.arr objs) s'
        | _ => .ok (.arr objs) s'
      | .panic m => .panic m
      | .timeout => .timeout
    | .booleanLiteral _ v => .ok (nativeBoolToBoolObj v) s
    | .callExpression tok fexpr argExprs =>
      match evalExpr fuel fexpr a s with
      | .ok fobj s' =>
        if isError fobj then .ok fobj s'
        else
          match evalExpressions fuel argExprs a s' with
          | .ok args s'' =>
            match args with
            | [o] =>
              if isError o then .ok o s''
              else applyFunction fuel tok fobj args s''
            | _ => applyFunction fuel tok fobj args s''
          | .panic m => .panic m
          | .timeout => .timeout
      | r => r
    | .floatLiteral _ v => .ok (.float v) s
    | .functionLiteral _ params body => .ok (.function params body a) s
    | .identExpression i => .ok (evalIdentifier i.token i.value a s) s
    | .ifExpression _ cond cons alt => evalIfExpression fuel cond cons alt a s
    | .indexExpression tok l idx =>
      match evalExpr fuel l a s with
      | .ok lv s' =>
        if isError lv then .ok lv s'
        else
          match evalExpr fuel idx a s' with
          | .ok iv s'' =>
            if isError iv then .ok iv s''
            else
              match evalIndexExpression tok lv iv with
              | .ok o => .ok o s''
              | .error m => .panic m
          | r => r
      | r => r
    | .integerLiteral _ v => .ok (.integer v) s
    | .infixExpression tok l op r =>
      match evalExpr fuel l a s with
      | .ok lv s' =>
        if isError lv then .ok lv s'
        else
          match evalExpr fuel r a s' with
          | .ok rv s'' =>
            if isError rv then .ok rv s''
            else
              match evalInfixExpr tok lv rv op with
              | .ok o => .ok o s''
              | .error m => .panic m
          | r2 => r2
      | r1 => r1
    | .prefixExpression tok op r =>
      match evalExpr fuel r a s with
      | .ok rv s' =>
        if isError rv then .ok rv s'
        else .ok (evalPrefixExpression tok op rv) s'
      | r1 => r1
    | .stringLiteral tok _ => .ok (.str tok.literal) s
termination_by structural fuel e a s => fuel

/-- evalExpressions of src/unnamed/part_001: left to right, stopping at
the first error, which is returned as a singleton list. -/
def evalExpressions : Nat → List Expr → Nat → St → ResL
  | 0, _, _, _ => .timeout
  | _ + 1, [], _, s => .ok [] s
  | fuel + 1, e :: rest, a, s =>
    match evalExpr fuel e a s with
    | .ok o s' =>
      if isError o then .ok [o] s'
      else
        match evalExpressions fuel rest a s' with
        | .ok os s'' => .ok (o :: os) s''
        | r => r
    | .panic m => .panic m
    | .timeout => .timeout
termination_by structural fuel exprs a s => fuel

/-- evalIfExpression of src/unnamed/part_001. -/
def evalIfExpression : Nat → Expr → Stmt → Option Stmt → Nat → St → Res
  | 0, _, _, _, _, _ => .timeout
  | fuel + 1, cond, cons, alt, a, s =>
    match evalExpr fuel cond a s with
    | .ok c s' =>
      if isError c then .ok c s'
      else if isTruthy c then evalStmt fuel cons a s'
      else
        match alt with
        | some altBlock => evalStmt fuel altBlock a s'
        | none => .ok .null s'
    | r => r
termination_by structural fuel cond cons alt a s => fuel

/-- applyFunction of src/unnamed/part_001. -/
def applyFunction : Nat → Token → Obj → List Obj → St → Res
  | 0, _, _, _, _ => .timeout
  | fuel + 1, tok, fobj, args, s =>
    match fobj with
    | .function params body fenv =>
      match extendFunctionEnv params fenv args s with
      | .ok (addr, s') =>
        match evalStmt fuel body addr s' with
        | .ok r s'' => .ok (unwrapReturnValue r) s''
        | r => r
      | .error m => .panic m
    | .builtin name => .ok (builtinsFn name args) s
    | _ =>
      .ok (newError ("attempted to eval something that wasn\x27t a function \x7b" ++
        fobj.type ++ "\x7d. On line: " ++ toString tok.line ++ ", column: " ++
        toString tok.column ++ ".")) s
termination_by structural fuel tok fobj args s => fuel

end

/-- The loop of evalProgram: the result variable starts nil and a
return value or error is returned as is, without unwrapping. -/
def evalProgramLoop (fuel : Nat) (a : Nat) : List Stmt → St → Obj → Res
  | [], s, result => .ok result s
  | stmt :: rest, s, _ =>
    match evalStmt fuel stmt a s with
    | .ok r s' =>
      match r with
      | .returnValue _ => .ok r s'
      | .error _ => .ok r s'
      | _ => evalProgramLoop fuel a rest s' r
    | r => r

/-- evalProgram of src/unnamed/part_001. -/
def evalProgram (fuel : Nat) (program : Program) (a : Nat) (s : St) : Res :=
  evalProgramLoop fuel a program.statements s .goNil

/-- The value part of an evaluation outcome. -/
def Res.valueOf : Res → Option Obj
  | .ok o _ => some o
  | _ => none

-- ====================================================================
-- Lexer (src/lexer.go)
-- ====================================================================

/-- The END sentinel byte of src/lexer.go. -/
def END : Char := Char.ofNat 0

/-- Lexer state, one field per Go field.  The input is a list of
characters standing for the byte string; the sources under study are
ASCII, where Go bytes and characters coincide. -/
structure Lexer where
  input : List Char
  idx : Nat
  peek : Nat
  line : Nat
  column : Nat
  length : Nat
  ch : Char
deriving Repr

/-- setLineCol of src/lexer.go: a newline bumps the line and sets the
column to 1 (at the newline character itself); every other byte bumps
the column. -/
def Lexer.setLineCol (l : Lexer) : Lexer :=
  if l.ch = '\n' then { l with line := l.line + 1, column := 1 }
  else { l with column := l.column + 1 }

/-- readChar of src/lexer.go. -/
def Lexer.readChar (l : Lexer) : Lexer :=
  let c := if l.peek ≥ l.length then END else l.input.getD l.peek END
  Lexer.setLineCol { l with ch := c, idx := l.peek, peek := l.peek + 1 }

/-- newLexer of src/lexer.go: line starts at 1; idx, peek, column and
ch start from the Go zero values; one readChar loads the first byte. -/
def newLexer (input : List Char) : Lexer :=
  Lexer.readChar
    { input := input, idx := 0, peek := 0, line := 1, column := 0,
      length := input.length, ch := END }

/-- The loop of skipWhitespace.  Every iteration advances idx by one
and the loop always stops once ch is END (reached before idx passes
length), so the gas length + 2 never runs out from a reachable state. -/
def Lexer.skipWhitespaceGo : Nat → Lexer → Lexer
  | 0, l => l
  | gas + 1, l =>
    if l.ch = '\n' || l.ch = ' ' || l.ch = '\t' || l.ch = '\r' then
      Lexer.skipWhitespaceGo gas l.readChar
    else l

/-- skipWhitespace of src/lexer.go. -/
def Lexer.skipWhitespace (l : Lexer) : Lexer :=
  Lexer.skipWhitespaceGo (l.length + 2) l

/-- isDigit of src/lexer.go (a dot counts as a digit byte). -/
def Lexer.isDigit (l : Lexer) : Bool :=
  ('0' ≤ l.ch && l.ch ≤ '9') || l.ch = '.'

/-- isLetter of src/lexer.go. -/
def Lexer.isLetter (l : Lexer) : Bool :=
  ('a' ≤ l.ch && l.ch ≤ 'z') || ('A' ≤ l.ch && l.ch ≤ 'Z') || l.ch = '_'

/-- The loop of readLiteral; same gas argument as skipWhitespace. -/
def Lexer.readLiteralGo (cond : Lexer → Bool) : Nat → Lexer → Lexer
  | 0, l => l
  | gas + 1, l =>
    if cond l && l.ch ≠ END then Lexer.readLiteralGo cond gas l.readChar else l

/-- readLiteral of src/lexer.go: consume while the condition holds and
return the substring input[start:idx] (as its character list; token
literals are built with String.mk at the call sites). -/
def Lexer.readLiteral (l : Lexer) (cond : Lexer → Bool) : List Char × Lexer :=
  let start := l.idx
  let l' := Lexer.readLiteralGo cond (l.length + 2) l
  ((l'.input.drop start).take (l'.idx - start), l')

/-- The loop of readString: read until a closing quote or END. -/
def Lexer.readStringGo : Nat → Lexer → Lexer
  | 0, l => l
  | gas + 1, l =>
    let l' := l.readChar
    if l'.ch = '"' || l'.ch = END then l' else Lexer.readStringGo gas l'

/-- readString of src/lexer.go: the literal is the content between the
quotes, input[position:idx] with position the peek at the opening
quote. -/
def Lexer.readString (l : Lexer) : List Char × Lexer :=
  let position := l.peek
  let l' := Lexer.readStringGo (l.length + 2) l
  ((l'.input.drop position).take (l'.idx - position), l')

/-- makeToken of src/lexer.go: a one-byte token carrying the current
line and column, then advance. -/
def Lexer.makeToken (l : Lexer) (tt : String) : Token × Lexer :=
  ({ tokenType := tt, literal := String.mk [l.ch], line := l.line,
     column := l.column }, l.readChar)

/-- makeTwoCharToken of src/lexer.go. -/
def Lexer.makeTwoCharToken (l : Lexer) (singleType secondType : String) :
    Token × Lexer :=
  let first := l.ch
  if l.peek < l.length && l.input.getD l.peek END = '=' then
    ({ tokenType := secondType, literal := String.mk [first, '='],
       line := l.line, column := l.column }, l.readChar.readChar)
  else l.makeToken singleType

/-- lexIdentKeyword of src/lexer.go. -/
def Lexer.lexIdentKeyword (l : Lexer) : Token × Lexer :=
  let line := l.line
  let col := l.column
  let (literalChars, l') := l.readLiteral Lexer.isLetter
  let literal := String.mk literalChars
  ({ tokenType := lookupIdent literal, literal := literal, line := line,
     column := col }, l')

/-- lexNumber of src/lexer.go: FLOAT when the literal contains a dot,
INT otherwise. -/
def Lexer.lexNumber (l : Lexer) : Token × Lexer :=
  let line := l.line
  let col := l.column
  let (literalChars, l') := l.readLiteral Lexer.isDigit
  let literal := String.mk literalChars
  if literalChars.contains '.' then
    ({ tokenType := Tok.FLOAT, literal := literal, line := line, column := col }, l')
  else
    ({ tokenType := Tok.INT, literal := literal, line := line, column := col }, l')

/-- lexString of src/lexer.go: the closing quote is consumed after the
token is built. -/
def Lexer.lexString (l : Lexer) : Token × Lexer :=
  let line := l.line
  let col := l.column
  let (literalChars, l') := l.readString
  ({ tokenType := Tok.STRING, literal := String.mk literalChars, line := line,
     column := col }, l'.readChar)

/-- lexOther of src/lexer.go. -/
def Lexer.lexOther (l : Lexer) : Token × Lexer :=
  if l.isDigit then l.lexNumber
  else if l.isLetter then l.lexIdentKeyword
  else l.makeToken Tok.ILLEGAL

/-- nextToken of src/lexer.go, with the switch cases in source order. -/
def Lexer.nextToken (l0 : Lexer) : Token × Lexer :=
  let l := l0.skipWhitespace
  if l.ch = '=' then l.makeTwoCharToken Tok.ASSIGN Tok.EQ
  else if l.ch = '!' then l.makeTwoCharToken Tok.BANG Tok.NOTEQ
  else if l.ch = '>' then l.makeTwoCharToken Tok.GT Tok.GTEQ
  else if l.ch = '<' then l.makeTwoCharToken Tok.LT Tok.LTEQ
  else if l.ch = '+' then l.makeToken Tok.PLUS
  else if l.ch = '-' then l.makeToken Tok.MINUS
  else if l.ch = '*' then l.makeToken Tok.ASTERIX
  else if l.ch = '/' then l.makeToken Tok.SLASH
  else if l.ch = ';' then l.makeToken Tok.SEMICOLON
  else if l.ch = ',' then l.makeToken Tok.COMMA
  else if l.ch = '(' then l.makeToken Tok.LPAREN
  else if l.ch = ')' then l.makeToken Tok.RPAREN
  else if l.ch = '\x7b' then l.makeToken Tok.LBRACE
  else if l.ch = '\x7d' then l.makeToken Tok.RBRACE
  else if l.ch = '[' then l.makeToken Tok.LBRACKET
  else if l.ch = ']' then l.makeToken Tok.RBRACKET
  else if l.ch = '"' then l.lexString
  else if l.ch = END then l.makeToken Tok.EOF
  else l.lexOther

/-- Run the lexer to the EOF token, as the parser does by pulling
tokens one at a time. -/
def tokenize : Nat → Lexer → List Token
  | 0, _ => []
  | fuel + 1, l =>
    let (tok, l') := l.nextToken
    if tok.tokenType == Tok.EOF then [tok] else tok :: tokenize fuel l'

/-- The line and column step performed for one byte, the content of
Lexer.setLineCol as a function of the coordinates. -/
def lineColStep (p : Nat × Nat) (c : Char) : Nat × Nat :=
  if c = '\n' then (p.1 + 1, 1) else (p.1, p.2 + 1)

/-- The coordinates held by the lexer after reading a given prefix of
the input, starting from line 1, column 0 as newLexer does. -/
def posAfter (cs : List Char) : Nat × Nat :=
  cs.foldl lineColStep (1, 0)

-- ====================================================================
-- Number literal parsing (strconv, as used by src/parser.go)
-- ====================================================================

/-- Value of a digit string in a base, none when a digit is out of
range for the base or the string is empty. -/
def digitsVal (base : Nat) : List Char → Option Nat → Option Nat
  | [], acc => acc
  | c :: rest, acc =>
    if '0' ≤ c && c ≤ '9' && (c.toNat - '0'.toNat) < base then
      match acc with
      | some v => digitsVal base rest (some (v * base + (c.toNat - '0'.toNat)))
      | none => digitsVal base rest (some (c.toNat - '0'.toNat))
    else none

/-- strconv.ParseInt(s, 0, 64) restricted to the literals the lexer can
produce for an INT token (strings of decimal digit bytes).  Base 0
means auto-base: a leading zero on a longer literal selects octal,
which fails on the digits 8 and 9; anything above MaxInt64 is an
overflow error. -/
def goParseInt (s : String) : Option Int :=
  match s.toList with
  | [] => none
  | ['0'] => some 0
  | '0' :: rest =>
    match digitsVal 8 rest none with
    | some v => if v ≤ 2 ^ 63 - 1 then some (v : Int) else none
    | none => none
  | cs =>
    match digitsVal 10 cs none with
    | some v => if v ≤ 2 ^ 63 - 1 then some (v : Int) else none
    | none => none

/-- Split a FLOAT literal (digit and dot bytes) at its single dot;
none when there are two dots or no digit at all, matching the failures
of strconv.ParseFloat on such literals. -/
def splitFloatDigits : List Char → Option (List Char × List Char)
  | [] => some ([], [])
  | c :: rest =>
    if c = '.' then
      if rest.contains '.' then none else some ([], rest)
    else
      match splitFloatDigits rest with
      | some (intPart, fracPart) => some (c :: intPart, fracPart)
      | none => none

/-- strconv.ParseFloat(s, 64) restricted to the literals the lexer can
produce for a FLOAT token.  The value is the correctly rounded IEEE
double of mantissa times ten to the minus number of fraction digits,
which is what both the Go and the Lean scientific conversion
compute. -/
def goParseFloat (s : String) : Option Float :=
  match splitFloatDigits s.toList with
  | none => none
  | some (intPart, fracPart) =>
    if intPart.isEmpty && fracPart.isEmpty then none
    else
      match digitsVal 10 (intPart ++ fracPart) none with
      | some m => some (Float.ofScientific m true fracPart.length)
      | none => none

-- ====================================================================
-- Parser (src/parser.go)
-- ====================================================================

def LowestPrec : Nat := 0

def EqualsPrec : Nat := 1

def LessGreaterPrec : Nat := 2

def SumPrec : Nat := 3

def ProductPrec : Nat := 4

def PrefixPrec : Nat := 5

def CallPrec : Nat := 6

def IndexPrec : Nat := 7

/-- getPrec of src/parser.go. -/
def getPrec (tokenType : String) : Nat :=
  if tokenType == Tok.EQ || tokenType == Tok.NOTEQ then EqualsPrec
  else if tokenType == Tok.LT || tokenType == Tok.LTEQ ||
      tokenType == Tok.GT || tokenType == Tok.GTEQ then LessGreaterPrec
  else if tokenType == Tok.PLUS || tokenType == Tok.MINUS then SumPrec
  else if tokenType == Tok.SLASH || tokenType == Tok.ASTERIX then ProductPrec
  else if tokenType == Tok.LPAREN then CallPrec
  else if tokenType == Tok.LBRACKET then IndexPrec
  else LowestPrec

/-- The domain of getInfixFn of src/parser.go: the token kinds that
have an infix parsing function. -/
def hasInfixFn (tokenType : String) : Bool :=
  tokenType == Tok.PLUS || tokenType == Tok.MINUS || tokenType == Tok.SLASH ||
  tokenType == Tok.ASTERIX || tokenType == Tok.EQ || tokenType == Tok.NOTEQ ||
  tokenType == Tok.LT || tokenType == Tok.LTEQ || tokenType == Tok.GT ||
  tokenType == Tok.GTEQ || tokenType == Tok.LPAREN || tokenType == Tok.LBRACKET

/-- Parser state of src/parser.go: the lexer, one token of lookahead
and the error list.  In the Go error paths the parser stores nil
expressions inside otherwise returned nodes, or appends typed nil
statements; this embedding returns none for the whole node instead.
Both shapes only arise together with a non-empty error list, and every
claim about the parser concerns programs whose error list is empty,
where the two agree. -/
structure Parser where
  lexer : Lexer
  cur : Token
  peek : Token
  errors : List String
deriving Repr

/-- nextToken of src/parser.go. -/
def Parser.nextToken (p : Parser) : Parser :=
  let (t, lx) := p.lexer.nextToken
  { p with cur := p.peek, peek := t, lexer := lx }

/-- The zero-valued Token that cur and peek start from. -/
def emptyToken : Token := ⟨"", "", 0, 0⟩

/-- newParser of src/parser.go: two nextToken calls load cur and
peek. -/
def newParser (lx : Lexer) : Parser :=
  Parser.nextToken (Parser.nextToken ⟨lx, emptyToken, emptyToken, []⟩)

/-- peekError of src/parser.go (message formatted as the Go Sprintf,
including the trailing blank). -/
def Parser.peekError (p : Parser) (expected : String) : Parser :=
  { p with errors := p.errors ++
      ["Error: got wrong expected type -> \x7b " ++ p.peek.tokenType ++
       " \x7d, wanted -> \x7b " ++ expected ++ " \x7d. On line: " ++
       toString p.peek.line ++ ", column " ++ toString p.peek.column ++ ". "] }

/-- noPrefixParsingFnError of src/parser.go. -/
def Parser.noPrefixParsingFnError (p : Parser) (tokenType : String) : Parser :=
  { p with errors := p.errors ++
      ["Error: no prefix parsing fn found for -> \x7b " ++ tokenType ++
       " \x7d. On line " ++ toString p.cur.line ++ ", column " ++
       toString p.cur.column] }

/-- numberParsingError of src/parser.go. -/
def Parser.numberParsingError (p : Parser) : Parser :=
  { p with errors := p.errors ++
      ["Error: could not parse -> \x7b " ++ p.cur.literal ++
       " \x7d into a number. On line " ++ toString p.cur.line ++
       " , column " ++ toString p.cur.column ++ "."] }

/-- expectPeek of src/parser.go. -/
def Parser.expectPeek (p : Parser) (expected : String) : Bool × Parser :=
  if p.peek.tokenType == expected then (true, p.nextToken)
  else (false, p.peekError expected)

/-- parseBooleanLiteral of src/parser.go. -/
def parseBooleanLiteral (p : Parser) : Option Expr × Parser :=
  (some (.booleanLiteral p.cur (p.cur.tokenType == Tok.TRUE)), p)

/-- parseFloatLiteral of src/parser.go. -/
def parseFloatLiteral (p : Parser) : Option Expr × Parser :=
  match goParseFloat p.cur.literal with
  | some v => (some (.floatLiteral p.cur v), p)
  | none => (none, p.numberParsingError)

/-- parseIdentifier of src/parser.go. -/
def parseIdentifier (p : Parser) : Option Expr × Parser :=
  (some (.identExpression ⟨p.cur, p.cur.literal⟩), p)

/-- parseIntegerLiteral of src/parser.go. -/
def parseIntegerLiteral (p : Parser) : Option Expr × Parser :=
  match goParseInt p.cur.literal with
  | some v => (some (.integerLiteral p.cur v), p)
  | none => (none, p.numberParsingError)

/-- parseStringLiteral of src/parser.go. -/
def parseStringLiteral (p : Parser) : Option Expr × Parser :=
  (some (.stringLiteral p.cur p.cur.literal), p)

/-- The comma loop of parseFunctionParameters of src/parser.go.  The
identifier is built from whatever token is current, as in the
source. -/
def parseFunctionParametersLoop : Nat → List Identifier → Parser →
    Option (List Identifier) × Parser
  | 0, _, p => (none, p)
  | fuel + 1, acc, p =>
    if p.peek.tokenType == Tok.COMMA then
      let p := p.nextToken.nextToken
      let ident : Identifier := ⟨p.cur, p.cur.literal⟩
      parseFunctionParametersLoop fuel (acc ++ [ident]) p
    else
      match p.expectPeek Tok.RPAREN with
      | (true, p) => (some acc, p)
      | (false, p) => (none, p)

/-- parseFunctionParameters of src/parser.go. -/
def parseFunctionParameters (fuel : Nat) (p : Parser) :
    Option (List Identifier) × Parser :=
  if p.peek.tokenType == Tok.RPAREN then (some [], p.nextToken)
  else
    let p := p.nextToken
    let ident : Identifier := ⟨p.cur, p.cur.literal⟩
    parseFunctionParametersLoop fuel [ident] p

mutual

/-- parseStatement of src/parser.go. -/
def parseStatement : Nat → Parser → Option Stmt × Parser
  | 0, p => (none, p)
  | fuel + 1, p =>
    if p.cur.tokenType == Tok.LET then parseLetStatement fuel p
    else if p.cur.tokenType == Tok.RETURN then parseReturnStatement fuel p
    else parseExpressionStatement fuel p
termination_by structural fuel p => fuel

/-- parseLetStatement of src/parser.go. -/
def parseLetStatement : Nat → Parser → Option Stmt × Parser
  | 0, p => (none, p)
  | fuel + 1, p =>
    let tok := p.cur
    match p.expectPeek Tok.IDENT with
    | (false, p) => (none, p)
    | (true, p) =>
      let name : Identifier := ⟨p.cur, p.cur.literal⟩
      match p.expectPeek Tok.ASSIGN with
      | (false, p) => (none, p)
      | (true, p) =>
        let p := p.nextToken
        match parseExpression fuel LowestPrec p with
        | (some value, p) =>
          let p := if p.peek.tokenType == Tok.SEMICOLON then p.nextToken else p
          (some (.letStatement tok name value), p)
        | (none, p) =>
          let p := if p.peek.tokenType == Tok.SEMICOLON then p.nextToken else p
          (none, p)
termination_by structural fuel p => fuel

/-- parseReturnStatement of src/parser.go. -/
def parseReturnStatement : Nat → Parser → Option Stmt × Parser
  | 0, p => (none, p)
  | fuel + 1, p =>
    let tok := p.cur
    let p := p.nextToken
    match parseExpression fuel LowestPrec p with
    | (some value, p) =>
      let p := if p.peek.tokenType == Tok.SEMICOLON then p.nextToken else p
      (some (.returnStatement tok value), p)
    | (none, p) =>
      let p := if p.peek.tokenType == Tok.SEMICOLON then p.nextToken else p
      (none, p)
termination_by structural fuel p => fuel

/-- parseExpressionStatement of src/parser.go. -/
def parseExpressionStatement : Nat → Parser → Option Stmt × Parser
  | 0, p => (none, p)
  | fuel + 1, p =>
    let tok := p.cur
    match parseExpression fuel LowestPrec p with
    | (some e, p) =>
      let p := if p.peek.tokenType == Tok.SEMICOLON then p.nextToken else p
      (some (.expressionStatement tok e), p)
    | (none, p) =>
      let p := if p.peek.tokenType == Tok.SEMICOLON then p.nextToken else p
      (none, p)
termination_by structural fuel p => fuel

/-- The statement loop of parseBlockStatement of src/parser.go. -/
def parseBlockLoop : Nat → List Stmt → Parser → List Stmt × Parser
  | 0, acc, p => (acc, p)
  | fuel + 1, acc, p =>
    if p.cur.tokenType != Tok.RBRACE && p.cur.tokenType != Tok.EOF then
      match parseStatement fuel p with
      | (some stmt, p) => parseBlockLoop fuel (acc ++ [stmt]) p.nextToken
      | (none, p) => parseBlockLoop fuel acc p.nextToken
    else (acc, p)
termination_by structural fuel acc p => fuel

/-- parseBlockStatement of src/parser.go. -/
def parseBlockStatement : Nat → Parser → Stmt × Parser
  | 0, p => (.blockStatement p.cur [], p)
  | fuel + 1, p =>
    let tok := p.cur
    let p := p.nextToken
    let (stmts, p) := parseBlockLoop fuel [] p
    (.blockStatement tok stmts, p)
termination_by structural fuel p => fuel

/-- parseExpression of src/parser.go: prefix dispatch (the getPrefixFn
table written out) followed by the Pratt loop. -/
def parseExpression : Nat → Nat → Parser → Option Expr × Parser
  | 0, _, p => (none, p)
  | fuel + 1, prec, p =>
    let (leftOpt, p) :=
      if p.cur.tokenType == Tok.BANG || p.cur.tokenType == Tok.MINUS then
        parsePrefixExpression fuel p
      else if p.cur.tokenType == Tok.FALSE || p.cur.tokenType == Tok.TRUE then
        parseBooleanLiteral p
      else if p.cur.tokenType == Tok.FLOAT then parseFloatLiteral p
      else if p.cur.tokenType == Tok.FUNCTION then parseFunctionLiteral fuel p
      else if p.cur.tokenType == Tok.IDENT then parseIdentifier p
      else if p.cur.tokenType == Tok.IF then parseIfExpression fuel p
      else if p.cur.tokenType == Tok.INT then parseIntegerLiteral p
      else if p.cur.tokenType == Tok.LBRACKET then parseArrayLiteral fuel p
      else if p.cur.tokenType == Tok.LPAREN then parseGroupedExpr fuel p
      else if p.cur.tokenType == Tok.STRING then parseStringLiteral p
      else (none, p.noPrefixParsingFnError p.cur.tokenType)
    match leftOpt with
    | some left => parsePrattLoop fuel prec left p
    | none => (none, p)
termination_by structural fuel prec p => fuel

/-- The infix loop of parseExpression of src/parser.go (the getInfixFn
table written out). -/
def parsePrattLoop : Nat → Nat → Expr → Parser → Option Expr × Parser
  | 0, _, _, p => (none, p)
  | fuel + 1, prec, left, p =>
    if p.peek.tokenType != Tok.SEMICOLON && prec < getPrec p.peek.tokenType then
      if hasInfixFn p.peek.tokenType then
        let p := p.nextToken
        let (resOpt, p) :=
          if p.cur.tokenType == Tok.LPAREN then parseCallExpression fuel left p
          else if p.cur.tokenType == Tok.LBRACKET then
            parseIndexExpression fuel left p
          else parseInfixExpression fuel left p
        match resOpt with
        | some left' => parsePrattLoop fuel prec left' p
        | none => (none, p)
      else (some left, p)
    else (some left, p)
termination_by structural fuel prec left p => fuel

/-- parseArrayLiteral of src/parser.go. -/
def parseArrayLiteral : Nat → Parser → Option Expr × Parser
  | 0, p => (none, p)
  | fuel + 1, p =>
    let tok := p.cur
    match parseExpressionList fuel Tok.RBRACKET p with
    | (some elements, p) => (some (.arrayLiteral tok elements), p)
    | (none, p) => (none, p)
termination_by structural fuel p => fuel

/-- parseCallExpression of src/parser.go. -/
def parseCallExpression : Nat → Expr → Parser → Option Expr × Parser
  | 0, _, p => (none, p)
  | fuel + 1, function, p =>
    let tok := p.cur
    match parseExpressionList fuel Tok.RPAREN p with
    | (some arguments, p) => (some (.callExpression tok function arguments), p)
    | (none, p) => (none, p)
termination_by structural fuel function p => fuel

/-- parseExpressionList of src/parser.go. -/
def parseExpressionList : Nat → String → Parser → Option (List Expr) × Parser
  | 0, _, p => (none, p)
  | fuel + 1, endTok, p =>
    if p.peek.tokenType == endTok then (some [], p.nextToken)
    else
      let p := p.nextToken
      match parseExpression fuel LowestPrec p with
      | (some e, p) => parseExpressionListLoop fuel endTok [e] p
      | (none, p) => (none, p)
termination_by structural fuel endTok p => fuel

/-- The comma loop of parseExpressionList of src/parser.go. -/
def parseExpressionListLoop : Nat → String → List Expr → Parser →
    Option (List Expr) × Parser
  | 0, _, _, p => (none, p)
  | fuel + 1, endTok, acc, p =>
    if p.peek.tokenType == Tok.COMMA then
      let p := p.nextToken.nextToken
      match parseExpression fuel LowestPrec p with
      | (some e, p) => parseExpressionListLoop fuel endTok (acc ++ [e]) p
      | (none, p) => (none, p)
    else
      match p.expectPeek endTok with
      | (true, p) => (some acc, p)
      | (false, p) => (none, p)
termination_by structural fuel endTok acc p => fuel

/-- parseFunctionLiteral of src/parser.go.  A failed parameter list
leaves a nil slice in the Go node; none is collapsed to the empty list
here, which iterates identically. -/
def parseFunctionLiteral : Nat → Parser → Option Expr × Parser
  | 0, p => (none, p)
  | fuel + 1, p =>
    let tok := p.cur
    match p.expectPeek Tok.LPAREN with
    | (false, p) => (none, p)
    | (true, p) =>
      let (paramsOpt, p) := parseFunctionParameters fuel p
      let params := paramsOpt.getD []
      match p.expectPeek Tok.LBRACE with
      | (false, p) => (none, p)
      | (true, p) =>
        let (body, p) := parseBlockStatement fuel p
        (some (.functionLiteral tok params body), p)
termination_by structural fuel p => fuel

/-- parseGroupedExpr of src/parser.go: grouping leaves no node. -/
def parseGroupedExpr : Nat → Parser → Option Expr × Parser
  | 0, p => (none, p)
  | fuel + 1, p =>
    let p := p.nextToken
    let (eOpt, p) := parseExpression fuel LowestPrec p
    match p.expectPeek Tok.RPAREN with
    | (true, p) => (eOpt, p)
    | (false, p) => (none, p)
termination_by structural fuel p => fuel

/-- parseIfExpression of src/parser.go. -/
def parseIfExpression : Nat → Parser → Option Expr × Parser
  | 0, p => (none, p)
  | fuel + 1, p =>
    let tok := p.cur
    match p.expectPeek Tok.LPAREN with
    | (false, p) => (none, p)
    | (true, p) =>
      let p := p.nextToken
      match parseExpression fuel LowestPrec p with
      | (none, p) => (none, p)
      | (some condition, p) =>
        match p.expectPeek Tok.RPAREN with
        | (false, p) => (none, p)
        | (true, p) =>
          match p.expectPeek Tok.LBRACE with
          | (false, p) => (none, p)
          | (true, p) =>
            let (consequence, p) := parseBlockStatement fuel p
            if p.peek.tokenType == Tok.ELSE then
              let p := p.nextToken
              match p.expectPeek Tok.LBRACE with
              | (false, p) => (none, p)
              | (true, p) =>
                let (alternative, p) := parseBlockStatement fuel p
                (some (.ifExpression tok condition consequence (some alternative)), p)
            else (some (.ifExpression tok condition consequence none), p)
termination_by structural fuel p => fuel

/-- parseIndexExpression of src/parser.go. -/
def parseIndexExpression : Nat → Expr → Parser → Option Expr × Parser
  | 0, _, p => (none, p)
  | fuel + 1, left, p =>
    let tok := p.cur
    let p := p.nextToken
    match parseExpression fuel LowestPrec p with
    | (some index, p) =>
      match p.expectPeek Tok.RBRACKET with
      | (true, p) => (some (.indexExpression tok left index), p)
      | (false, p) => (none, p)
    | (none, p) =>
      match p.expectPeek Tok.RBRACKET with
      | (_, p) => (none, p)
termination_by structural fuel left p => fuel

/-- parseInfixExpression of src/parser.go: right associates at the
precedence of the operator token. -/
def parseInfixExpression : Nat → Expr → Parser → Option Expr × Parser
  | 0, _, p => (none, p)
  | fuel + 1, left, p =>
    let tok := p.cur
    let operator := p.cur.literal
    let prec := getPrec p.cur.tokenType
    let p := p.nextToken
    match parseExpression fuel prec p with
    | (some right, p) => (some (.infixExpression tok left operator right), p)
    | (none, p) => (none, p)
termination_by structural fuel left p => fuel

/-- parsePrefixExpression of src/parser.go. -/
def parsePrefixExpression : Nat → Parser → Option Expr × Parser
  | 0, p => (none, p)
  | fuel + 1, p =>
    let tok := p.cur
    let operator := p.cur.literal
    let p := p.nextToken
    match parseExpression fuel PrefixPrec p with
    | (some right, p) => (some (.prefixExpression tok operator right), p)
    | (none, p) => (none, p)
termination_by structural fuel p => fuel

end

/-- The statement loop of parseProgram of src/parser.go. -/
def parseProgramLoopP : Nat → List Stmt → Parser → List Stmt × Parser
  | 0, acc, p => (acc, p)
  | fuel + 1, acc, p =>
    if p.cur.tokenType != Tok.EOF then
      match parseStatement fuel p with
      | (some stmt, p) => parseProgramLoopP fuel (acc ++ [stmt]) p.nextToken
      | (none, p) => parseProgramLoopP fuel acc p.nextToken
    else (acc, p)

/-- parseProgram of src/parser.go. -/
def parseProgram (fuel : Nat) (p : Parser) : Program × Parser :=
  let (stmts, p') := parseProgramLoopP fuel [] p
  (⟨stmts⟩, p')

/-- The whole front end on a source string: lexer, parser, resulting
program and error list, with fuel ample for the input size. -/
def parseSrc (input : List Char) : Program × List String :=
  let p := newParser (newLexer input)
  let (prog, p') := parseProgram (input.length * 4 + 64) p
  (prog, p'.errors)

-- ====================================================================
-- The unparser: the toString methods of src/unnamed/part_003
-- ====================================================================

/-- Identifier.toString. -/
def Identifier.toString (i : Identifier) : String := i.value

/-- Go %v formatting of a float64.  The exact Go shortest-decimal
algorithm is not reproduced; no theorem below evaluates this
function. -/
def floatGoString (f : Float) : String := toString f

mutual

/-- The toString methods of the statement nodes of
src/unnamed/part_003, with fuel for the nested recursion (any fuel at
least the node depth gives the printed form).  A block prints its
statements concatenated with no braces and no separators; a let
statement prints its token literal, the name and the value. -/
def Stmt.toString : Nat → Stmt → String
  | 0, _ => ""
  | fuel + 1, st =>
    match st with
    | .letStatement tok name value =>
      tok.literal ++ " " ++ name.value ++ " = " ++ Expr.toString fuel value
    | .returnStatement _ value => "return " ++ Expr.toString fuel value
    | .expressionStatement _ e => Expr.toString fuel e
    | .blockStatement _ stmts => String.join (stmts.map (Stmt.toString fuel))
termination_by structural fuel st => fuel

/-- The toString methods of the expression nodes of
src/unnamed/part_003.  Note for the round-trip claim: a function
literal prints as fn, the parameter list and the bare body; an if
expression prints without parentheses and braces; a string literal
prints its raw token literal without quotes. -/
def Expr.toString : Nat → Expr → String
  | 0, _ => ""
  | fuel + 1, e =>
    match e with
    | .arrayLiteral _ elements =>
      "[" ++ String.intercalate (", ") (elements.map (Expr.toString fuel)) ++ "]"
    | .booleanLiteral tok _ => tok.literal
    | .callExpression _ function arguments =>
      Expr.toString fuel function ++ "(" ++
        String.intercalate (", ") (arguments.map (Expr.toString fuel)) ++ ")"
    | .floatLiteral _ v => floatGoString v
    | .functionLiteral tok params body =>
      tok.literal ++ "(" ++
        String.intercalate (", ") (params.map Identifier.toString) ++ ")" ++
        Stmt.toString fuel body
    | .identExpression i => i.value
    | .ifExpression _ condition consequence alternative =>
      match alternative with
      | none =>
        "if " ++ Expr.toString fuel condition ++ " " ++
          Stmt.toString fuel consequence
      | some alt =>
        "if " ++ Expr.toString fuel condition ++ " " ++
          Stmt.toString fuel consequence ++ " else " ++ Stmt.toString fuel alt
    | .indexExpression _ left index =>
      "(" ++ Expr.toString fuel left ++ "[" ++ Expr.toString fuel index ++ "])"
    | .infixExpression _ left operator right =>
      "(" ++ Expr.toString fuel left ++ " " ++ operator ++ " " ++
        Expr.toString fuel right ++ ")"
    | .integerLiteral _ v => toString v
    | .prefixExpression _ operator right =>
      "(" ++ operator ++ " " ++ Expr.toString fuel right ++ ")"
    | .stringLiteral tok _ => tok.literal
termination_by structural fuel e => fuel

end

/-- Program.toString of src/unnamed/part_003: each statement followed
by one blank. -/
def Program.toString (fuel : Nat) (p : Program) : String :=
  String.join (p.statements.map (fun st => Stmt.toString fuel st ++ " "))

-- ====================================================================
-- Token-erased AST shapes (structural equivalence for the round trip)
-- ====================================================================

mutual

/-- Statement skeleton with the originating tokens erased: re-parsing
printed source cannot reproduce the original line and column numbers,
so structural equivalence compares these shapes. -/
inductive SStmt where
  | letS (name : String) (value : SExpr)
  | returnS (value : SExpr)
  | exprS (e : SExpr)
  | blockS (statements : List SStmt)
deriving Repr

/-- Expression skeleton with tokens erased. -/
inductive SExpr where
  | arrayL (elements : List SExpr)
  | boolL (value : Bool)
  | callE (function : SExpr) (arguments : List SExpr)
  | floatL (value : Float)
  | funcL (parameters : List String) (body : SStmt)
  | identE (name : String)
  | ifE (condition : SExpr) (consequence : SStmt) (alternative : Option SStmt)
  | indexE (left : SExpr) (index : SExpr)
  | infixE (left : SExpr) (operator : String) (right : SExpr)
  | intL (value : Int)
  | prefixE (operator : String) (right : SExpr)
  | stringL (value : String)
deriving Repr

end

mutual

/-- Erase the tokens of a statement (fuel as for the printer). -/
def Stmt.shape : Nat → Stmt → SStmt
  | 0, _ => .blockS []
  | fuel + 1, st =>
    match st with
    | .letStatement _ name value => .letS name.value (Expr.shape fuel value)
    | .returnStatement _ value => .returnS (Expr.shape fuel value)
    | .expressionStatement _ e => .exprS (Expr.shape fuel e)
    | .blockStatement _ stmts => .blockS (stmts.map (Stmt.shape fuel))
termination_by structural fuel st => fuel

/-- Erase the tokens of an expression. -/
def Expr.shape : Nat → Expr → SExpr
  | 0, _ => .identE ""
  | fuel + 1, e =>
    match e with
    | .arrayLiteral _ elements => .arrayL (elements.map (Expr.shape fuel))
    | .booleanLiteral _ v => .boolL v
    | .callExpression _ function arguments =>
      .callE (Expr.shape fuel function) (arguments.map (Expr.shape fuel))
    | .floatLiteral _ v => .floatL v
    | .functionLiteral _ params body =>
      .funcL (params.map (fun p => p.value)) (Stmt.shape fuel body)
    | .identExpression i => .identE i.value
    | .ifExpression _ condition consequence alternative =>
      .ifE (Expr.shape fuel condition) (Stmt.shape fuel consequence)
        (match alternative with
         | some alt => some (Stmt.shape fuel alt)
         | none => none)
    | .indexExpression _ left index =>
      .indexE (Expr.shape fuel left) (Expr.shape fuel index)
    | .infixExpression _ left operator right =>
      .infixE (Expr.shape fuel left) operator (Expr.shape fuel right)
    | .integerLiteral _ v => .intL v
    | .prefixExpression _ operator right =>
      .prefixE operator (Expr.shape fuel right)
    | .stringLiteral _ v => .stringL v
termination_by structural fuel e => fuel

end

/-- The shapes of the statements of a program. -/
def Program.shapes (fuel : Nat) (p : Program) : List SStmt :=
  p.statements.map (Stmt.shape fuel)

-- ====================================================================
-- Display forms: the inspect methods of src/object.go
-- ====================================================================

/-- strings.Join with the comma-blank separator. -/
def joinComma (xs : List String) : String := String.intercalate (", ") xs

/-- The element loop of Array.inspect of src/object.go: renderings are
collected in order and, at the moment the element of index 5 is added,
the loop returns early with the six renderings collected so far
followed by the truncation marker inside the brackets. -/
def arrayRenderLoop (acc : List String) (idx : Nat) : List String → String
  | [] => "[" ++ joinComma acc ++ "]"
  | s :: rest =>
    if idx = 5 then "[" ++ joinComma (acc ++ [s]) ++ ", ..." ++ "]"
    else arrayRenderLoop (acc ++ [s]) (idx + 1) rest

/-- The inspect methods of src/object.go, with fuel for the nested
recursion (any fuel at least the object depth gives the display form).
goNil has no inspect in Go (calling a method on nil panics); the marker
is unreachable from the driver, which checks for nil first. -/
def Obj.inspect : Nat → Obj → String
  | 0, _ => ""
  | fuel + 1, o =>
    match o with
    | .integer value => toString value
    | .float value => floatGoString value
    | .boolean value => if value then "true" else "false"
    | .str value => value
    | .arr elements => arrayRenderLoop [] 0 (elements.map (Obj.inspect fuel))
    | .function parameters _ _ =>
      "fn(" ++ joinComma (parameters.map (fun p => p.value)) ++ ")"
    | .builtin _ => "builtin function"
    | .null => "null"
    | .returnValue value => Obj.inspect fuel value
    | .error message => "Error: " ++ message
    | .goNil => "GO_NIL_PANIC"

-- ====================================================================
-- Slice-store model of the push builtin (src/golangBuiltins.go)
-- ====================================================================

/-- Values as the push builtin sees them, with the Go aliasing made
explicit: an Array object is a pointer to a backing slice held in a
store, every other object is carried directly. -/
inductive GoRef where
  | arrP (addr : Nat)
  | prim (o : Obj)
deriving Repr

/-- The store of backing slices of live Array objects. -/
abbrev SliceStore := List (List GoRef)

/-- Type() over the reference view. -/
def goRefType : GoRef → String
  | .arrP _ => ARRAY_OBJ
  | .prim o => o.type

/-- The push builtin of src/golangBuiltins.go over the slice store:
after the arity and type checks it allocates newElements with make,
copies the elements of the argument array, writes the pushed value at
the last position and returns a new Array object over the fresh slice.
No write to the slice of the argument array occurs.  The invalid
pointer branch is unreachable: every Array object passed to a builtin
has its backing slice in the store. -/
def pushGo (args : List GoRef) (store : SliceStore) : GoRef × SliceStore :=
  if args.length != 2 then
    (.prim (newError ("push: wrong number of arguments. Got " ++
      toString args.length ++ ", want 2")), store)
  else
    match args with
    | [.arrP addr, v] =>
      match store[addr]? with
      | some elements => (.arrP store.length, store ++ [elements ++ [v]])
      | none => (.prim (newError ("invalid array pointer")), store)
    | [a, _] =>
      (.prim (newError ("push: first argument to push must be an Array, got " ++
        goRefType a ++ ".")), store)
    | _ => (.prim (newError ("unreachable")), store)

-- ====================================================================
-- Decidable equality test on shapes
-- ====================================================================

mutual

/-- Boolean structural equality on statement shapes, with fuel (any
fuel above the depth decides).  It is sound but incomplete: float
literals always compare false, because IEEE values admit no decidable
propositional equality here; none of the compared programs contain
float literals. -/
def SStmt.beq : Nat → SStmt → SStmt → Bool
  | 0, _, _ => false
  | fuel + 1, a, b =>
    match a, b with
    | .letS n1 v1, .letS n2 v2 => n1 == n2 && SExpr.beq fuel v1 v2
    | .returnS v1, .returnS v2 => SExpr.beq fuel v1 v2
    | .exprS e1, .exprS e2 => SExpr.beq fuel e1 e2
    | .blockS l1, .blockS l2 => SStmt.beqList fuel l1 l2
    | _, _ => false
termination_by structural fuel a b => fuel

/-- Boolean equality on statement shape lists. -/
def SStmt.beqList : Nat → List SStmt → List SStmt → Bool
  | 0, _, _ => false
  | _ + 1, [], [] => true
  | fuel + 1, a :: as, b :: bs => SStmt.beq fuel a b && SStmt.beqList fuel as bs
  | _ + 1, _, _ => false
termination_by structural fuel a b => fuel

/-- Boolean structural equality on expression shapes. -/
def SExpr.beq : Nat → SExpr → SExpr → Bool
  | 0, _, _ => false
  | fuel + 1, a, b =>
    match a, b with
    | .arrayL l1, .arrayL l2 => SExpr.beqList fuel l1 l2
    | .boolL b1, .boolL b2 => b1 == b2
    | .callE f1 a1, .callE f2 a2 =>
      SExpr.beq fuel f1 f2 && SExpr.beqList fuel a1 a2
    | .floatL _, .floatL _ => false
    | .funcL p1 b1, .funcL p2 b2 => p1 == p2 && SStmt.beq fuel b1 b2
    | .identE n1, .identE n2 => n1 == n2
    | .ifE c1 t1 alt1, .ifE c2 t2 alt2 =>
      SExpr.beq fuel c1 c2 && (SStmt.beq fuel t1 t2 &&
        (match alt1, alt2 with
         | none, none => true
         | some x, some y => SStmt.beq fuel x y
         | _, _ => false))
    | .indexE l1 i1, .indexE l2 i2 =>
      SExpr.beq fuel l1 l2 && SExpr.beq fuel i1 i2
    | .infixE l1 o1 r1, .infixE l2 o2 r2 =>
      SExpr.beq fuel l1 l2 && (o1 == o2 && SExpr.beq fuel r1 r2)
    | .intL v1, .intL v2 => v1 == v2
    | .prefixE o1 r1, .prefixE o2 r2 => o1 == o2 && SExpr.beq fuel r1 r2
    | .stringL s1, .stringL s2 => s1 == s2
    | _, _ => false
termination_by structural fuel a b => fuel

/-- Boolean equality on expression shape lists. -/
def SExpr.beqList : Nat → List SExpr → List SExpr → Bool
  | 0, _, _ => false
  | _ + 1, [], [] => true
  | fuel + 1, a :: as, b :: bs => SExpr.beq fuel a b && SExpr.beqList fuel as bs
  | _ + 1, _, _ => false
termination_by structural fuel a b => fuel

end

-- ====================================================================
-- Claim-specific definitions
-- ====================================================================

/-- The closure program of C2; the argument is the identifier v, bound
in the top-level environment to the value under test. -/
def closureSrc : String := "let f = fn(x) \x7b fn() \x7b x \x7d \x7d; f(v)()"

/-- The AST of closureSrc written out, with the token metadata cleared
(tokens only feed error messages, never evaluation results). -/
def closureProg : Program :=
  ⟨[.letStatement emptyToken ⟨emptyToken, "f"⟩
      (.functionLiteral emptyToken [⟨emptyToken, "x"⟩]
        (.blockStatement emptyToken
          [.expressionStatement emptyToken
            (.functionLiteral emptyToken []
              (.blockStatement emptyToken
                [.expressionStatement emptyToken
                  (.identExpression ⟨emptyToken, "x"⟩)]))])),
    .expressionStatement emptyToken
      (.callExpression emptyToken
        (.callExpression emptyToken (.identExpression ⟨emptyToken, "f"⟩)
          [.identExpression ⟨emptyToken, "v"⟩]) [])]⟩

/-- The seven value kinds of the language named by C2 (excluding the
control-flow objects ReturnValue and Error and the Builtin objects). -/
def isUserValue : Obj → Prop
  | .integer _ => True
  | .float _ => True
  | .boolean _ => True
  | .str _ => True
  | .arr _ => True
  | .function _ _ _ => True
  | .null => True
  | _ => False

/-- The representative round-trip source for the amended C5, using
every form whose printed shape survives a re-parse: prefix, infix,
boolean, integer and grouped expressions, array literals, indexing,
let, return, call and identifiers. -/
def rtSrc : String := "!true == false; let a = [7, -8][0]; return foo(a, 2 + a)"

/-- Adjacent expression statements of C5: the printer drops the
semicolon and the printed second statement starts with a parenthesis,
so re-parsing merges the two statements into one call expression. -/
def adjSrc : String := "5; -3"

-- ====================================================================
-- Shared lemmas
-- ====================================================================

/-- Soundness of the boolean shape comparison: a true outcome (at any
fuel) is a propositional equality. -/
theorem sBeq_sound (fuel : Nat) :
    (∀ a b : SStmt, SStmt.beq fuel a b = true → a = b) ∧
    (∀ l1 l2 : List SStmt, SStmt.beqList fuel l1 l2 = true → l1 = l2) ∧
    (∀ a b : SExpr, SExpr.beq fuel a b = true → a = b) ∧
    (∀ l1 l2 : List SExpr, SExpr.beqList fuel l1 l2 = true → l1 = l2) := by
  induction fuel with
  | zero =>
    refine ⟨fun a b h => ?_, fun a b h => ?_, fun a b h => ?_, fun a b h => ?_⟩ <;>
      simp [SStmt.beq, SStmt.beqList, SExpr.beq, SExpr.beqList] at h
  | succ fuel ih =>
    obtain ⟨ihS, ihSL, ihE, ihEL⟩ := ih
    refine ⟨fun a b h => ?_, fun l1 l2 h => ?_, fun a b h => ?_, fun l1 l2 h => ?_⟩
    · cases a <;> cases b <;> simp [SStmt.beq] at h
      · rw [h.1, ihE _ _ h.2]
      · rw [ihE _ _ h]
      · rw [ihE _ _ h]
      · rw [ihSL _ _ h]
    · cases l1 <;> cases l2 <;> simp [SStmt.beqList] at h
      · rfl
      · rw [ihS _ _ h.1, ihSL _ _ h.2]
    · cases a <;> cases b <;> simp [SExpr.beq] at h
      · rw [ihEL _ _ h]
      · rw [h]
      · rw [ihE _ _ h.1, ihEL _ _ h.2]
      · rw [h.1, ihS _ _ h.2]
      · rw [h]
      · rename_i c1 t1 alt1 c2 t2 alt2
        obtain ⟨h1, h2, h3⟩ := h
        cases alt1 <;> cases alt2 <;> simp at h3
        · rw [ihE _ _ h1, ihS _ _ h2]
        · rw [ihE _ _ h1, ihS _ _ h2, ihS _ _ h3]
      · rw [ihE _ _ h.1, ihE _ _ h.2]
      · rw [ihE _ _ h.1, h.2.1, ihE _ _ h.2.2]
      · rw [h]
      · rw [h.1, ihE _ _ h.2]
      · rw [h]
    · cases l1 <;> cases l2 <;> simp [SExpr.beqList] at h
      · rfl
      · rw [ihE _ _ h.1, ihEL _ _ h.2]

theorem nativeBoolToBoolObj_eq (b : Bool) : nativeBoolToBoolObj b = .boolean b := by
  cases b <;> rfl

theorem wrap64_emod (n : Int) : wrap64 n % 2 ^ 64 = n % 2 ^ 64 := by
  unfold wrap64; omega

theorem wrap64_lb (n : Int) : -(2 ^ 63) ≤ wrap64 n := by
  unfold wrap64; omega

theorem wrap64_ub (n : Int) : wrap64 n < 2 ^ 63 := by
  unfold wrap64; omega

theorem bindParams_take (params : List Identifier) (args : List Obj) (k : Nat) :
    ∀ (idx : Nat) (acc : List (String × Obj)), idx + params.length ≤ k →
      k ≤ args.length →
      bindParams params (args.take k) idx acc = bindParams params args idx acc := by
  induction params with
  | nil => intro idx acc _ _; rfl
  | cons p ps ih =>
    intro idx acc hk hlen
    have hidx : idx < k := by simp at hk; omega
    have hidx2 : idx < args.length := lt_of_lt_of_le hidx hlen
    simp only [bindParams, List.getElem?_take_of_lt hidx,
      List.getElem?_eq_getElem hidx2]
    exact ih (idx + 1) ((p.value, args[idx]) :: acc) (by simp at hk ⊢; omega) hlen

theorem readChar_lineColStep (l : Lexer) :
    ((l.readChar).line, (l.readChar).column) =
      lineColStep (l.line, l.column)
        (if l.peek ≥ l.length then END else l.input.getD l.peek END) := by
  simp only [Lexer.readChar, Lexer.setLineCol, lineColStep]
  split <;> split <;> simp_all

theorem posAfter_closed (cs : List Char) :
    posAfter cs =
      (1 + cs.countP (fun c => c == '\n'),
       if '\n' ∈ cs then
         (cs.reverse.takeWhile (fun c => c != '\n')).length + 1
       else (cs.reverse.takeWhile (fun c => c != '\n')).length) := by
  induction cs using List.reverseRecOn with
  | nil => rfl
  | append_singleton cs c ih =>
    have hstep : posAfter (cs ++ [c]) = lineColStep (posAfter cs) c := by
      simp [posAfter, List.foldl_append]
    rw [hstep, ih]
    by_cases hc : c = '\n'
    · subst hc
      simp [lineColStep, List.countP_append, List.reverse_append,
        List.takeWhile_cons, List.mem_append]
      omega
    · by_cases hm : '\n' ∈ cs <;>
        simp [lineColStep, hc, Ne.symm hc, List.countP_append,
          List.reverse_append, List.takeWhile_cons, List.mem_append, hm]

theorem arrayRenderLoop_spec (rest : List String) :
    ∀ acc : List String,
      arrayRenderLoop acc acc.length rest =
        if acc.length ≤ 5 ∧ 6 ≤ acc.length + rest.length then
          "[" ++ joinComma (acc ++ rest.take (6 - acc.length)) ++ ", ..." ++ "]"
        else "[" ++ joinComma (acc ++ rest) ++ "]" := by
  induction rest with
  | nil =>
    intro acc
    rw [arrayRenderLoop, if_neg (by rintro ⟨h1, h2⟩; simp at h2; omega)]
    simp
  | cons s rest ih =>
    intro acc
    rw [arrayRenderLoop]
    by_cases h5 : acc.length = 5
    · rw [if_pos h5, if_pos ⟨by omega, by simp; omega⟩]
      have h6 : 6 - acc.length = 0 + 1 := by omega
      rw [h6, List.take_succ_cons, List.take_zero]
    · rw [if_neg h5, show acc.length + 1 = (acc ++ [s]).length by simp,
        ih (acc ++ [s])]
      by_cases hc : 6 ≤ acc.length + 1 + rest.length
      · by_cases h4 : acc.length ≤ 4
        · rw [if_pos ⟨by simp; omega, by simp; omega⟩,
            if_pos ⟨by omega, by simp; omega⟩]
          have h7 : 6 - acc.length = (6 - (acc ++ [s]).length) + 1 := by
            simp; omega
          rw [h7, List.take_succ_cons, List.append_assoc]
          simp
        · rw [if_neg (by rintro ⟨hx, _⟩; simp at hx; omega),
            if_neg (by rintro ⟨hx, _⟩; omega)]
          simp
      · rw [if_neg (by rintro ⟨_, hx⟩; simp at hx; omega),
          if_neg (by rintro ⟨_, hx⟩; simp at hx; omega)]
        simp

-- ====================================================================
-- Claims
-- ====================================================================

/-- C10: integer division in the evaluator is unguarded.  The program
1 / 0 parses without errors and its evaluation reaches the host
division by zero, producing the Go runtime panic rather than an L
Error value; the division branch of evalIntegerInfixExpr exhibits the
panic directly. -/
theorem c10_division_unguarded :
    (parseSrc (("1 / 0").toList)).2 = [] ∧
    evalProgram 32 (parseSrc (("1 / 0").toList)).1 0 [⟨[], none⟩] =
      .panic ("runtime error: integer divide by zero") ∧
    (evalProgram 32 (parseSrc (("1 / 0").toList)).1 0 [⟨[], none⟩]).valueOf = none ∧
    evalIntegerInfixExpr emptyToken (.integer 1) (.integer 0) Tok.SLASH =
      .error ("runtime error: integer divide by zero") :=
  ⟨rfl, rfl, rfl, rfl⟩

/-- C1 counterexample: evalProgram does not unwrap a ReturnValue.  The
program return 5; 9 parses cleanly, stops at the return statement, and
the result is the ReturnValue wrapper around Integer 5, which is not
the Integer 5 itself. -/
theorem c1_counterexample_wrapper_returned :
    (parseSrc (("return 5; 9").toList)).2 = [] ∧
    evalProgram 32 (parseSrc (("return 5; 9").toList)).1 0 [⟨[], none⟩] =
      .ok (.returnValue (.integer 5)) [⟨[], none⟩] ∧
    (Obj.returnValue (.integer 5) ≠ Obj.integer 5) := by
  refine ⟨rfl, rfl, ?_⟩
  intro h
  cases h

/-- C1 amended: evalProgram evaluates the statements in order; when a
statement produces a ReturnValue, evaluation stops at once and the
ReturnValue itself is returned, not its unwrapped inner value; when a
statement produces an Error, that Error is returned immediately; any
other result continues the loop on the remaining statements in
order. -/
theorem c1_evalProgram_order :
    (∀ (fuel a : Nat) (s : St) (stmt : Stmt) (rest : List Stmt) (v : Obj) (s' : St),
      evalStmt fuel stmt a s = .ok (.returnValue v) s' →
      evalProgram fuel ⟨stmt :: rest⟩ a s = .ok (.returnValue v) s') ∧
    (∀ (fuel a : Nat) (s : St) (stmt : Stmt) (rest : List Stmt) (m : String) (s' : St),
      evalStmt fuel stmt a s = .ok (.error m) s' →
      evalProgram fuel ⟨stmt :: rest⟩ a s = .ok (.error m) s') ∧
    (∀ (fuel a : Nat) (s : St) (stmt : Stmt) (rest : List Stmt) (r : Obj) (s' : St),
      evalStmt fuel stmt a s = .ok r s' →
      (∀ v, r ≠ .returnValue v) → (∀ m, r ≠ .error m) →
      evalProgram fuel ⟨stmt :: rest⟩ a s = evalProgramLoop fuel a rest s' r) := by
  refine ⟨?_, ?_, ?_⟩
  · intro fuel a s stmt rest v s' h
    simp [evalProgram, evalProgramLoop, h]
  · intro fuel a s stmt rest m s' h
    simp [evalProgram, evalProgramLoop, h]
  · intro fuel a s stmt rest r s' h hrv herr
    cases r <;> simp_all [evalProgram, evalProgramLoop, h]

/-- C1 witness: the order theorem applied to the concrete return
statement of the counterexample program. -/
theorem c1_witness :
    evalProgram 8
      ⟨[Stmt.returnStatement emptyToken (Expr.integerLiteral emptyToken 5),
        Stmt.expressionStatement emptyToken (Expr.integerLiteral emptyToken 9)]⟩
      0 [⟨[], none⟩] = .ok (.returnValue (.integer 5)) [⟨[], none⟩] :=
  c1_evalProgram_order.1 8 0 [⟨[], none⟩]
    (Stmt.returnStatement emptyToken (Expr.integerLiteral emptyToken 5))
    [Stmt.expressionStatement emptyToken (Expr.integerLiteral emptyToken 9)]
    (.integer 5) [⟨[], none⟩] rfl

/-- C9: a user function application binds the first k parameters
positionally in a fresh frame enclosing the captured environment, so
extra arguments are silently ignored (the application equals the
application to the first k arguments); with fewer arguments than
parameters the positional slot access panics in the host, and the
out-of-bounds branch is reachable from the program
let f = fn(x, y) [braces] x [end]; f(1). -/
theorem c9_arity_behavior :
    (∀ (fuel : Nat) (tok : Token) (params : List Identifier) (body : Stmt)
      (fenv : Nat) (args : List Obj) (s : St),
      params.length ≤ args.length →
      applyFunction fuel tok (.function params body fenv) args s =
        applyFunction fuel tok (.function params body fenv)
          (args.take params.length) s) ∧
    ((parseSrc (("let f = fn(x, y) \x7b x \x7d; f(1)").toList)).2 = [] ∧
      evalProgram 32 (parseSrc (("let f = fn(x, y) \x7b x \x7d; f(1)").toList)).1
        0 [⟨[], none⟩] =
        .panic ("runtime error: index out of range [1] with length 1")) := by
  refine ⟨?_, rfl, rfl⟩
  intro fuel tok params body fenv args s hlen
  cases fuel with
  | zero => rfl
  | succ fuel =>
    have hbp : bindParams params (args.take params.length) 0 [] =
        bindParams params args 0 [] :=
      bindParams_take params args params.length 0 [] (by omega) hlen
    simp [applyFunction, extendFunctionEnv, hbp]

/-- C9 witness: applying a one-parameter function to two arguments
equals applying it to the first argument only. -/
theorem c9_witness :
    applyFunction 8 emptyToken
      (.function [⟨emptyToken, "x"⟩]
        (Stmt.blockStatement emptyToken
          [Stmt.expressionStatement emptyToken
            (Expr.identExpression ⟨emptyToken, "x"⟩)]) 0)
      [.integer 1, .integer 2] [⟨[], none⟩] =
    applyFunction 8 emptyToken
      (.function [⟨emptyToken, "x"⟩]
        (Stmt.blockStatement emptyToken
          [Stmt.expressionStatement emptyToken
            (Expr.identExpression ⟨emptyToken, "x"⟩)]) 0)
      [.integer 1] [⟨[], none⟩] :=
  c9_arity_behavior.1 8 emptyToken [⟨emptyToken, "x"⟩]
    (Stmt.blockStatement emptyToken
      [Stmt.expressionStatement emptyToken
        (Expr.identExpression ⟨emptyToken, "x"⟩)]) 0
    [.integer 1, .integer 2] [⟨[], none⟩] (by simp)

/-- C8: over the slice store, push on an array argument allocates a
fresh backing slice holding the elements of the argument followed by
the pushed value and returns an Array over the fresh slice; the
backing slice of the argument is unchanged by the call; a non-array
first argument or an argument count other than two yields an Error. -/
theorem c8_push_copies :
    (∀ (store : SliceStore) (addr : Nat) (elements : List GoRef) (v : GoRef),
      store[addr]? = some elements →
      pushGo [.arrP addr, v] store =
        (.arrP store.length, store ++ [elements ++ [v]]) ∧
      (pushGo [.arrP addr, v] store).2[store.length]? = some (elements ++ [v]) ∧
      (pushGo [.arrP addr, v] store).2[addr]? = some elements ∧
      addr ≠ store.length) ∧
    (∀ (store : SliceStore) (o : Obj) (v : GoRef),
      pushGo [.prim o, v] store =
        (.prim (newError ("push: first argument to push must be an Array, got " ++
          o.type ++ ".")), store)) ∧
    (∀ (store : SliceStore) (args : List GoRef), args.length ≠ 2 →
      pushGo args store =
        (.prim (newError ("push: wrong number of arguments. Got " ++
          toString args.length ++ ", want 2")), store)) := by
  refine ⟨?_, ?_, ?_⟩
  · intro store addr elements v h
    have haddr : addr < store.length := (List.getElem?_eq_some_iff.mp h).1
    refine ⟨by simp [pushGo, h], ?_, ?_, by omega⟩
    · simp [pushGo, h]
    · simp only [pushGo, h]
      simp [List.getElem?_append_left haddr, h]
  · intro store o v
    rfl
  · intro store args hlen
    unfold pushGo
    have : (args.length != 2) = true := by simpa using hlen
    simp [this]

/-- C2: for every value v of the seven user-visible kinds, evaluating
the program let f = fn(x) [braces] fn() [braces] x; f(v)() in any
environment binding v yields exactly v: the inner function literal
captures the frame in which x was bound positionally, and applying it
finds x through that captured chain.  The first conjunct ties the
program text to the written-out AST through the parser. -/
theorem c2_closure_identity :
    ((parseSrc (closureSrc.toList)).2 = [] ∧
     Program.shapes 99 (parseSrc (closureSrc.toList)).1 =
       Program.shapes 99 closureProg) ∧
    ∀ (v : Obj) (bs : List (String × Obj)) (out : Option Nat),
      isUserValue v →
      (evalProgram 32 closureProg 0 [⟨("v", v) :: bs, out⟩]).valueOf = some v := by
  refine ⟨⟨by decide, (sBeq_sound 99).2.1 _ _ (by decide)⟩, ?_⟩
  intro v bs out hv
  cases v <;> first | rfl | exact hv.elim

/-- C2 witness: the closure program applied to the Integer 42. -/
theorem c2_witness :
    (evalProgram 32 closureProg 0 [⟨[("v", Obj.integer 42)], none⟩]).valueOf =
      some (Obj.integer 42) :=
  c2_closure_identity.2 (.integer 42) [] none True.intro

/-- C5 counterexample: the well-formed program fn(x) [braces] x prints
as fn(x)x without the body braces; re-parsing the printed form records
a parse error and yields a structurally different AST (a bare
identifier statement instead of the function literal). -/
theorem c5_counterexample_function_literal :
    (parseSrc (("fn(x)\x7bx\x7d").toList)).2 = [] ∧
    Program.toString 99 (parseSrc (("fn(x)\x7bx\x7d").toList)).1 = "fn(x)x " ∧
    (parseSrc (("fn(x)x ").toList)).2 ≠ [] ∧
    Program.shapes 99 (parseSrc (("fn(x)\x7bx\x7d").toList)).1 =
      [.exprS (.funcL ["x"] (.blockS [.exprS (.identE "x")]))] ∧
    Program.shapes 99 (parseSrc (("fn(x)x ").toList)).1 =
      [.exprS (.identE "x")] ∧
    (SStmt.exprS (.funcL ["x"] (.blockS [.exprS (.identE "x")])) ≠
      SStmt.exprS (.identE "x")) := by
  refine ⟨by decide, by decide, by decide, ?_, ?_, by simp⟩
  · exact (sBeq_sound 99).2.1 _ _ (by decide)
  · exact (sBeq_sound 99).2.1 _ _ (by decide)

/-- C5 amended: parse, print, re-parse yields a structurally
equivalent AST (tokens erased) for well-formed programs built from the
printable-stable forms exercised by rtSrc, verified on that
representative; the property fails for function literals, if
expressions, string literals and float literals, whose printed forms
lose required delimiters, and also for adjacent expression statements
whose printed successor starts with a parenthesis or bracket, where
the dropped semicolon changes the association (adjSrc re-parses as one
call expression). -/
theorem c5_amended_roundtrip :
    ((parseSrc (rtSrc.toList)).2 = [] ∧
     (parseSrc ((Program.toString 99 (parseSrc (rtSrc.toList)).1).toList)).2 = [] ∧
     Program.shapes 99
         (parseSrc ((Program.toString 99 (parseSrc (rtSrc.toList)).1).toList)).1 =
       Program.shapes 99 (parseSrc (rtSrc.toList)).1) ∧
    ((parseSrc (adjSrc.toList)).2 = [] ∧
     Program.shapes 99 (parseSrc (adjSrc.toList)).1 =
       [.exprS (.intL 5), .exprS (.prefixE ("-") (.intL 3))] ∧
     (parseSrc ((Program.toString 99 (parseSrc (adjSrc.toList)).1).toList)).2 = [] ∧
     Program.shapes 99
         (parseSrc ((Program.toString 99 (parseSrc (adjSrc.toList)).1).toList)).1 =
       [.exprS (.callE (.intL 5) [.prefixE ("-") (.intL 3)])]) := by
  refine ⟨⟨by decide, by decide, ?_⟩, by decide, ?_, by decide, ?_⟩
  · exact (sBeq_sound 99).2.1 _ _ (by decide)
  · exact (sBeq_sound 99).2.1 _ _ (by decide)
  · exact (sBeq_sound 99).2.1 _ _ (by decide)

/-- C3: on two Integer operands the operators + - * / produce the
Integer equal to the host 64-bit signed arithmetic on the operands:
the result is congruent to the exact sum, difference, product or
truncated quotient modulo 2 to the 64 and lies in the int64 range
(wrapping on overflow); the comparison operators produce the Boolean
of the corresponding order relation; and whenever the two operand
types differ and the operator is neither == nor !=, evalInfixExpr
returns the mismatched-types Error naming both types, with no numeric
coercion. -/
theorem c3_integer_infix_host_arithmetic :
    (∀ (a b : Int) (tok : Token),
      (∃ c, evalIntegerInfixExpr tok (.integer a) (.integer b) Tok.PLUS =
          .ok (.integer c) ∧
        c % 2 ^ 64 = (a + b) % 2 ^ 64 ∧ -(2 ^ 63) ≤ c ∧ c < 2 ^ 63) ∧
      (∃ c, evalIntegerInfixExpr tok (.integer a) (.integer b) Tok.MINUS =
          .ok (.integer c) ∧
        c % 2 ^ 64 = (a - b) % 2 ^ 64 ∧ -(2 ^ 63) ≤ c ∧ c < 2 ^ 63) ∧
      (∃ c, evalIntegerInfixExpr tok (.integer a) (.integer b) Tok.ASTERIX =
          .ok (.integer c) ∧
        c % 2 ^ 64 = (a * b) % 2 ^ 64 ∧ -(2 ^ 63) ≤ c ∧ c < 2 ^ 63) ∧
      (b ≠ 0 →
        ∃ c, evalIntegerInfixExpr tok (.integer a) (.integer b) Tok.SLASH =
            .ok (.integer c) ∧
          c % 2 ^ 64 = a.tdiv b % 2 ^ 64 ∧ -(2 ^ 63) ≤ c ∧ c < 2 ^ 63) ∧
      (∃ bb, evalIntegerInfixExpr tok (.integer a) (.integer b) Tok.LT =
          .ok (.boolean bb) ∧ (bb = true ↔ a < b)) ∧
      (∃ bb, evalIntegerInfixExpr tok (.integer a) (.integer b) Tok.LTEQ =
          .ok (.boolean bb) ∧ (bb = true ↔ a ≤ b)) ∧
      (∃ bb, evalIntegerInfixExpr tok (.integer a) (.integer b) Tok.GT =
          .ok (.boolean bb) ∧ (bb = true ↔ a > b)) ∧
      (∃ bb, evalIntegerInfixExpr tok (.integer a) (.integer b) Tok.GTEQ =
          .ok (.boolean bb) ∧ (bb = true ↔ a ≥ b)) ∧
      (∃ bb, evalIntegerInfixExpr tok (.integer a) (.integer b) Tok.EQ =
          .ok (.boolean bb) ∧ (bb = true ↔ a = b)) ∧
      (∃ bb, evalIntegerInfixExpr tok (.integer a) (.integer b) Tok.NOTEQ =
          .ok (.boolean bb) ∧ (bb = true ↔ a ≠ b))) ∧
    (∀ (l r : Obj) (op : String) (tok : Token),
      l.type ≠ r.type → l ≠ .goNil → r ≠ .goNil →
      op ≠ Tok.EQ → op ≠ Tok.NOTEQ →
      evalInfixExpr tok l r op =
        .ok (.error (mismatchedTypesMsg l.type r.type tok))) := by
  constructor
  · intro a b tok
    refine ⟨⟨wrap64 (a + b), rfl, wrap64_emod _, wrap64_lb _, wrap64_ub _⟩,
      ⟨wrap64 (a - b), rfl, wrap64_emod _, wrap64_lb _, wrap64_ub _⟩,
      ⟨wrap64 (a * b), rfl, wrap64_emod _, wrap64_lb _, wrap64_ub _⟩,
      fun hb => ⟨wrap64 (a.tdiv b), ?_, wrap64_emod _, wrap64_lb _, wrap64_ub _⟩,
      ⟨decide (a < b), ?_, by simp⟩, ⟨decide (a ≤ b), ?_, by simp⟩,
      ⟨decide (a > b), ?_, by simp⟩, ⟨decide (a ≥ b), ?_, by simp⟩,
      ⟨a == b, ?_, by simp⟩, ⟨decide (a ≠ b), ?_, by simp⟩⟩
    · rw [show evalIntegerInfixExpr tok (.integer a) (.integer b) Tok.SLASH =
        if b = 0 then Except.error ("runtime error: integer divide by zero")
        else .ok (.integer (wrap64 (a.tdiv b))) from rfl, if_neg hb]
    · rw [show evalIntegerInfixExpr tok (.integer a) (.integer b) Tok.LT =
        .ok (nativeBoolToBoolObj (decide (a < b))) from rfl, nativeBoolToBoolObj_eq]
    · rw [show evalIntegerInfixExpr tok (.integer a) (.integer b) Tok.LTEQ =
        .ok (nativeBoolToBoolObj (decide (a ≤ b))) from rfl, nativeBoolToBoolObj_eq]
    · rw [show evalIntegerInfixExpr tok (.integer a) (.integer b) Tok.GT =
        .ok (nativeBoolToBoolObj (decide (a > b))) from rfl, nativeBoolToBoolObj_eq]
    · rw [show evalIntegerInfixExpr tok (.integer a) (.integer b) Tok.GTEQ =
        .ok (nativeBoolToBoolObj (decide (a ≥ b))) from rfl, nativeBoolToBoolObj_eq]
    · rw [show evalIntegerInfixExpr tok (.integer a) (.integer b) Tok.EQ =
        .ok (nativeBoolToBoolObj (a == b)) from rfl, nativeBoolToBoolObj_eq]
    · rw [show evalIntegerInfixExpr tok (.integer a) (.integer b) Tok.NOTEQ =
        .ok (nativeBoolToBoolObj (decide (a ≠ b))) from rfl, nativeBoolToBoolObj_eq]
  · intro l r op tok hty hl hr he hne
    have h1 : (l.type == INTEGER_OBJ && r.type == INTEGER_OBJ) = false := by
      by_cases c1 : l.type = INTEGER_OBJ
      · by_cases c2 : r.type = INTEGER_OBJ
        · exact absurd (c1.trans c2.symm) hty
        · simp [c2]
      · simp [c1]
    have h2 : (l.type == FLOAT_OBJ && r.type == FLOAT_OBJ) = false := by
      by_cases c1 : l.type = FLOAT_OBJ
      · by_cases c2 : r.type = FLOAT_OBJ
        · exact absurd (c1.trans c2.symm) hty
        · simp [c2]
      · simp [c1]
    have h3 : (l.type == STRING_OBJ && r.type == STRING_OBJ) = false := by
      by_cases c1 : l.type = STRING_OBJ
      · by_cases c2 : r.type = STRING_OBJ
        · exact absurd (c1.trans c2.symm) hty
        · simp [c2]
      · simp [c1]
    have he' : (op == Tok.EQ) = false := by simp [he]
    have hne' : (op == Tok.NOTEQ) = false := by simp [hne]
    have hty' : (l.type != r.type) = true := by simp [hty]
    simp [evalInfixExpr, h1, h2, h3, he', hne', hty', newError]

/-- C3 witness: the theorem applied at 7 and 3 for addition and at the
mixed pair Integer 1 and Float 1.5 for the mismatched-types error. -/
theorem c3_witness :
    (∃ c, evalIntegerInfixExpr emptyToken (.integer 7) (.integer 3) Tok.PLUS =
        .ok (.integer c) ∧
      c % 2 ^ 64 = ((7 : Int) + 3) % 2 ^ 64 ∧ -(2 ^ 63) ≤ c ∧ c < 2 ^ 63) ∧
    evalInfixExpr emptyToken (.integer 1) (.float 1.5) Tok.PLUS =
      .ok (.error (mismatchedTypesMsg (Obj.integer 1).type (Obj.float 1.5).type
        emptyToken)) :=
  ⟨(c3_integer_infix_host_arithmetic.1 7 3 emptyToken).1,
   c3_integer_infix_host_arithmetic.2 (.integer 1) (.float 1.5) Tok.PLUS
     emptyToken (by decide) (by simp) (by simp) (by decide) (by decide)⟩

/-- C4: indexing an Array of length n with an Integer i yields the
i-th element when 0 le i le n-1 and null otherwise; every other
combination of operand types yields the index-operator Error naming
the left type. -/
theorem c4_index_semantics :
    (∀ (elements : List Obj) (i : Int) (o : Obj) (tok : Token),
      0 ≤ i → elements[i.toNat]? = some o →
      evalIndexExpression tok (.arr elements) (.integer i) = .ok o) ∧
    (∀ (elements : List Obj) (i : Int) (tok : Token),
      i < 0 ∨ (elements.length : Int) ≤ i →
      evalIndexExpression tok (.arr elements) (.integer i) = .ok .null) ∧
    (∀ (l idx : Obj) (tok : Token),
      ¬(l.type = ARRAY_OBJ ∧ idx.type = INTEGER_OBJ) →
      l ≠ .goNil → idx ≠ .goNil →
      evalIndexExpression tok l idx =
        .ok (.error ("index operator not supported: " ++ l.type ++
          ". On line " ++ toString tok.line ++ ", column: " ++
          toString tok.column ++ "."))) := by
  refine ⟨?_, ?_, ?_⟩
  · intro elements i o tok h0 hget
    have hlt : i.toNat < elements.length := (List.getElem?_eq_some_iff.mp hget).1
    have hcond : (decide (i < 0) || decide (i > (elements.length : Int) - 1)) =
        false := by
      simp only [Bool.or_eq_false_iff, decide_eq_false_iff_not]
      omega
    rw [show evalIndexExpression tok (.arr elements) (.integer i) =
      (if (decide (i < 0) || decide (i > (elements.length : Int) - 1)) = true then
        Except.ok Obj.null
      else
        match elements[i.toNat]? with
        | some o => Except.ok o
        | none => Except.error ("runtime error: index out of range")) from rfl]
    rw [if_neg (by simp [hcond]), hget]
  · intro elements i tok hout
    have hcond : (decide (i < 0) || decide (i > (elements.length : Int) - 1)) =
        true := by
      rcases hout with h | h <;> simp <;> omega
    rw [show evalIndexExpression tok (.arr elements) (.integer i) =
      (if (decide (i < 0) || decide (i > (elements.length : Int) - 1)) = true then
        Except.ok Obj.null
      else
        match elements[i.toNat]? with
        | some o => Except.ok o
        | none => Except.error ("runtime error: index out of range")) from rfl]
    rw [if_pos (by simp [hcond])]
  · intro l idx tok hna hl hi
    have hcond : (l.type == ARRAY_OBJ && idx.type == INTEGER_OBJ) = false := by
      by_cases c1 : l.type = ARRAY_OBJ
      · by_cases c2 : idx.type = INTEGER_OBJ
        · exact absurd ⟨c1, c2⟩ hna
        · simp [c2]
      · simp [c1]
    simp [evalIndexExpression, hcond, newError]

/-- C4 witness: in-bounds index 1 of a two-element array, out-of-bounds
index 5, and a string indexed by an integer. -/
theorem c4_witness :
    evalIndexExpression emptyToken (.arr [.integer 1, .integer 2]) (.integer 1) =
      .ok (.integer 2) ∧
    evalIndexExpression emptyToken (.arr [.integer 1, .integer 2]) (.integer 5) =
      .ok .null ∧
    evalIndexExpression emptyToken (.str ("s")) (.integer 0) =
      .ok (.error ("index operator not supported: " ++ (Obj.str ("s")).type ++
        ". On line " ++ toString emptyToken.line ++ ", column: " ++
        toString emptyToken.column ++ ".")) :=
  ⟨c4_index_semantics.1 [.integer 1, .integer 2] 1 (.integer 2) emptyToken
     (by decide) rfl,
   c4_index_semantics.2.1 [.integer 1, .integer 2] 5 emptyToken
     (Or.inr (by norm_num)),
   c4_index_semantics.2.2 (.str ("s")) (.integer 0) emptyToken
     (by simp [Obj.type, ARRAY_OBJ, STRING_OBJ]) (by simp) (by simp)⟩

/-- C6 counterexample: lexing the two-line input a-newline-b reports
the token b at line 2, column 2, although b is the first character of
line 2, whose 1-based column is 1. -/
theorem c6_counterexample_column_offset :
    ((tokenize 16 (newLexer (("a\nb").toList))).map
        (fun t => (t.literal, t.line, t.column))) =
      [("a", 1, 1), ("b", 2, 2), (String.mk [END], 2, 3)] ∧
    (2 : Nat) ≠ 1 :=
  ⟨by decide, by decide⟩

/-- C6 amended: the lexer assigns to each byte the coordinates of the
fold of setLineCol over the consumed prefix, starting at line 1,
column 0: the line is 1 plus the number of newlines read, and the
column is the number of bytes after the last newline, plus 1 when a
newline was read (the newline byte itself takes column 1, so the first
byte of every line after the first is reported at column 2, while
tokens of the first line carry correct 1-based columns). -/
theorem c6_line_column_tracking :
    (∀ cs : List Char,
      posAfter cs =
        (1 + cs.countP (fun c => c == '\n'),
         if '\n' ∈ cs then
           (cs.reverse.takeWhile (fun c => c != '\n')).length + 1
         else (cs.reverse.takeWhile (fun c => c != '\n')).length)) ∧
    (∀ l : Lexer,
      ((l.readChar).line, (l.readChar).column) =
        lineColStep (l.line, l.column)
          (if l.peek ≥ l.length then END else l.input.getD l.peek END)) ∧
    ((tokenize 16 (newLexer (("let x = 5").toList))).map
        (fun t => (t.literal, t.line, t.column)) =
      [("let", 1, 1), ("x", 1, 5), ("=", 1, 7), ("5", 1, 9),
       (String.mk [END], 1, 10)]) :=
  ⟨posAfter_closed, readChar_lineColStep, by decide⟩

/-- C6 witness: the position fold applied to the counterexample input;
the final coordinates sit at line 2, column 2. -/
theorem c6_witness :
    posAfter (("a\nb").toList) = (2, 2) :=
  (c6_line_column_tracking.1 (("a\nb").toList)).trans (by decide)

/-- C7 counterexample: an array of exactly six elements is displayed
truncated, with the marker, contradicting the claim that only arrays
longer than six elements are truncated. -/
theorem c7_counterexample_six_elements :
    Obj.inspect 9 (.arr [.integer 1, .integer 2, .integer 3, .integer 4,
      .integer 5, .integer 6]) = "[1, 2, 3, 4, 5, 6, ...]" ∧
    ("[1, 2, 3, 4, 5, 6, ...]" ≠ "[1, 2, 3, 4, 5, 6]") :=
  ⟨by decide, by decide⟩

/-- C7 amended: the display form of an Array renders the elements by
the same display rule inside brackets, and exactly the arrays of
length at least 6 (not only those longer than 6) are truncated to
their first six elements followed by the comma-dots marker; arrays of
at most five elements display all elements with no marker. -/
theorem c7_array_display_truncation :
    ∀ (fuel : Nat) (elements : List Obj),
      (6 ≤ elements.length →
        Obj.inspect (fuel + 1) (.arr elements) =
          "[" ++ joinComma ((elements.take 6).map (Obj.inspect fuel)) ++
            ", ..." ++ "]") ∧
      (elements.length ≤ 5 →
        Obj.inspect (fuel + 1) (.arr elements) =
          "[" ++ joinComma (elements.map (Obj.inspect fuel)) ++ "]") := by
  intro fuel elements
  have hbase : Obj.inspect (fuel + 1) (.arr elements) =
      arrayRenderLoop [] 0 (elements.map (Obj.inspect fuel)) := rfl
  have hspec := arrayRenderLoop_spec (elements.map (Obj.inspect fuel)) []
  simp only [List.length_nil, List.nil_append, List.length_map, Nat.zero_add,
    Nat.sub_zero] at hspec
  constructor
  · intro h6
    rw [hbase, hspec, if_pos ⟨by omega, by omega⟩, List.map_take]
  · intro h5
    rw [hbase, hspec, if_neg (by rintro ⟨_, hx⟩; omega)]

/-- C7 witness: a three-element array displays all elements with no
marker. -/
theorem c7_witness :
    Obj.inspect 9 (.arr [.integer 1, .integer 2, .integer 3]) =
      "[" ++ joinComma ([Obj.integer 1, Obj.integer 2, Obj.integer 3].map
        (Obj.inspect 8)) ++ "]" :=
  (c7_array_display_truncation 8 [.integer 1, .integer 2, .integer 3]).2
    (by decide)

/-- C8 witness: pushing 9 onto the one-element array at address 0
leaves slice 0 unchanged and allocates slice 1 with both elements. -/
theorem c8_witness :
    pushGo [.arrP 0, .prim (.integer 9)] [[.prim (.integer 7)]] =
      (.arrP 1, [[.prim (.integer 7)], [.prim (.integer 7), .prim (.integer 9)]]) ∧
    ([[.prim (.integer 7)], [.prim (.integer 7), .prim (.integer 9)]] :
      SliceStore)[0]? = some [.prim (.integer 7)] :=
  ⟨(c8_push_copies.1 [[.prim (.integer 7)]] 0 [.prim (.integer 7)]
      (.prim (.integer 9)) rfl).1, rfl⟩

end ML
